import Mathlib

/-!
# ns: resolve a host name and optionally probe it with a TCP connect

A shallow embedding of `src/ns.c`.  The program talks to the operating system
(resolver, sockets) and to the C library (`getopt`, stdio).  Those are not part
of the program, so the embedding takes their answers as data:

* each resolved candidate carries, next to its `addrinfo` fields, the answers the
  system gives while `main` works on it (`Replies`);
* every call with an effect, and every line written, is recorded in order in a
  trace of `Event`s, so that "what was called, on what, in which order" can be
  stated and proved;
* `errno` and the `host` buffer are threaded explicitly (`Locals`), because
  `main` reads both after calls that may or may not have written them.

Modelling conventions: a system call stores to `errno` exactly when its reply
says so (`SysRet.errno`), stdio does not touch `errno`, `getnameinfo` writes
the `host` buffer only when it returns 0, and `getopt` behaves as POSIX
specifies it (options first, no reordering of `argv`).
-/

namespace Ns

/-! ## Constants of the source -/

/-- `#define SOCKET_TIMEOUT 10000` -/
def SOCKET_TIMEOUT : Int := 10000

/-- `#define SERVICE_PORT 80` -/
def SERVICE_PORT : Int := 80

/-! ## Data model -/

/-- Reply of one system call: the value returned, and the value the call stores
to `errno` (`none`: the call leaves `errno` as it is). -/
structure SysRet where
  ret : Int
  errno : Option Int
  deriving DecidableEq, Repr

/-- The `setsockopt` option names used by `set_timeouts`. -/
inductive SockOpt
  | SO_RCVTIMEO
  | SO_SNDTIMEO
  deriving DecidableEq, Repr

/-- Everything a run does that is visible outside `main`, in program order. -/
inductive Event
  /-- text written by `printf` or the `info` macro (which appends the newline) -/
  | stdout (text : String)
  /-- `warn(fmt, ...)`: the formatted message, followed on stderr by the text of `errno` -/
  | warn (msg : String) (errno : Int)
  /-- `warnx(fmt, ...)`: the formatted message alone -/
  | warnx (msg : String)
  /-- `err(status, fmt, ...)`: like `warn`, then the process exits with `status` -/
  | err (status : Int) (msg : String) (errno : Int)
  /-- diagnostic written by `getopt` itself for an option character it does not know -/
  | getopt_diag (c : Char)
  | res_init
  | getaddrinfo (node service : String) (ret : Int)
  | freeaddrinfo
  | socket (family : Int) (ret : Int)
  | getnameinfo (addr : Nat) (ret : Int)
  | setsockopt (sd : Int) (opt : SockOpt) (tv_sec tv_usec : Int) (ret : Int)
  | connect (sd : Int) (addr : Nat) (ret : Int)
  | poll (sd : Int) (msec : Int) (ret : Int)
  | getsockopt (sd : Int) (ret : Int)
  | close (sd : Int)
  deriving DecidableEq, Repr

/-- How the process ends: `return rc` from `main`, or `exit(code)` from inside `err`. -/
inductive Status
  | returned (rc : Int)
  | exited (code : Int)
  deriving DecidableEq, Repr

/-- A finished run: its trace and how it ended. -/
structure Out where
  trace : List Event
  status : Status
  deriving DecidableEq, Repr

/-- The run `o` preceded by the events `evs`. -/
def Out.after (evs : List Event) (o : Out) : Out :=
  ⟨evs ++ o.trace, o.status⟩

/-- The answers of the system while `main` works on one candidate. -/
structure Replies where
  /-- `socket(ai_family, SOCK_STREAM, 0)` -/
  socket : SysRet
  /-- `getnameinfo(sa, len, host, ...)`; non-zero is failure -/
  getnameinfo : SysRet
  /-- the numeric host string `getnameinfo` writes to `host` when it returns 0 -/
  host : String
  /-- `setsockopt(sd, SOL_SOCKET, SO_RCVTIMEO, ...)` -/
  so_rcvtimeo : SysRet
  /-- `setsockopt(sd, SOL_SOCKET, SO_SNDTIMEO, ...)` -/
  so_sndtimeo : SysRet
  /-- `connect(sd, sa, len)` -/
  connect : SysRet
  /-- `poll(&pfd, 1, msec)` -/
  poll : SysRet
  /-- `getsockopt(sd, SOL_SOCKET, SO_ERROR, &code, &len)` -/
  getsockopt : SysRet
  /-- the pending error `getsockopt` stores to `code` when it returns 0 -/
  so_error : Int
  deriving DecidableEq, Repr

/-- One entry of the list built by `getaddrinfo` (`struct addrinfo`; the socket
address is kept abstract), together with the system's answers for it. -/
structure Cand where
  ai_family : Int
  ai_addr : Nat
  ai_addrlen : Nat
  sys : Replies
  deriving DecidableEq, Repr

/-- What lies outside the program for the whole run. -/
structure Env where
  /-- value of the `errno.h` constant `EINPROGRESS` on the platform -/
  EINPROGRESS : Int
  /-- `getaddrinfo(node, service, &hints, &servinfo)`: return code, the list
  stored to `servinfo` (empty list: `NULL`), and the value left in `errno` -/
  getaddrinfo : String → String → Int × List Cand × Int
  /-- `gai_strerror` -/
  gai_strerror : Int → String
  /-- contents of the `host` buffer before anything is written to it -/
  host0 : String

/-- The variables of `main` that live across loop iterations. -/
structure Locals where
  errno : Int
  host : String
  tries : Int
  rc : Int
  deriving DecidableEq, Repr

/-- Result of a C function returning `int`: value, `errno` afterwards, events. -/
structure Ret where
  val : Int
  errno : Int
  trace : List Event
  deriving DecidableEq, Repr

/-! ## `soerror`, `check_error`, `set_timeouts`, `usage` -/

/-- `soerror(sd)`: returns 1 when `getsockopt` fails, else `errno = code`. -/
def soerror (r : Replies) (sd : Int) (errno : Int) : Ret :=
  let e1 := r.getsockopt.errno.getD errno
  if r.getsockopt.ret ≠ 0 then
    ⟨1, e1, [Event.getsockopt sd r.getsockopt.ret]⟩
  else
    ⟨r.so_error, r.so_error, [Event.getsockopt sd r.getsockopt.ret]⟩

/-- `check_error(sd, msec)`, entered with the given `errno`. -/
def check_error (EINPROGRESS : Int) (r : Replies) (sd msec : Int) (errno : Int) : Ret :=
  if EINPROGRESS = errno then
    let waiting := Event.stdout
      ("Waiting (" ++ toString (msec.tdiv 1000) ++ " sec) for three-way handshake to complete ...\n")
    let e1 := r.poll.errno.getD errno
    if r.poll.ret > 0 then
      let so := soerror r sd e1
      if so.val = 0 then
        ⟨0, so.errno, [waiting, Event.poll sd msec r.poll.ret] ++ so.trace ++ [Event.stdout "Connected.\n"]⟩
      else
        ⟨1, so.errno, [waiting, Event.poll sd msec r.poll.ret] ++ so.trace⟩
    else
      ⟨1, e1, [waiting, Event.poll sd msec r.poll.ret]⟩
  else
    ⟨1, errno, []⟩

/-- `set_timeouts(sd, timeout)`: returns `errno` afterwards and the events. -/
def set_timeouts (r : Replies) (sd timeout : Int) (errno : Int) : Int × List Event :=
  let tv_sec := timeout.tdiv 1000
  let tv_usec := (timeout.tmod 1000) * 1000
  let e1 := r.so_rcvtimeo.errno.getD errno
  let w1 := if r.so_rcvtimeo.ret = -1 then
      [Event.warn "Failed setting receive timeout socket option" e1] else []
  let e2 := r.so_sndtimeo.errno.getD e1
  let w2 := if r.so_sndtimeo.ret = -1 then
      [Event.warn "Failed setting send timeout socket option" e2] else []
  (e2, [Event.setsockopt sd SockOpt.SO_RCVTIMEO tv_sec tv_usec r.so_rcvtimeo.ret] ++ w1
        ++ [Event.setsockopt sd SockOpt.SO_SNDTIMEO tv_sec tv_usec r.so_sndtimeo.ret] ++ w2)

/-- The fixed text printed by `usage`. -/
def usage_text : String :=
  "Usage: ns [-ch?] [FQDN] [PORT]\n\nOptions:\n  -c     Attempt to connect\n  -h,-?  This help text\n\n"

/-- `usage(rc)`: print the usage text, return `rc`. -/
def usage (rc : Int) : Out :=
  ⟨[Event.stdout usage_text], Status.returned rc⟩

/-! ## `getopt` of the C library -/

/-- One call of `getopt` that did not return `EOF`: the option character
returned, and the character reported on stderr when the option is unknown. -/
structure GetoptRet where
  c : Char
  diag : Option Char
  deriving DecidableEq, Repr

/-- The calls of `getopt` that consume one option cluster (the characters after
the leading `-` of one `argv` element): a character of `optstring` is returned
as it is, any other one is reported and returned as `?`. -/
def getopt_cluster (optstring : List Char) : List Char → List GetoptRet
  | [] => []
  | c :: cs =>
    (if c ∈ optstring ∧ c ≠ ':' then GetoptRet.mk c none else GetoptRet.mk '?' (some c))
      :: getopt_cluster optstring cs

/-- POSIX `getopt` for an `optstring` without option arguments, run over the
`argv` elements from index `optind` on: the results of its successive calls up
to the first one that returns `EOF`, and the value of `optind` at that moment.
Scanning stops at the first element that is not an option (no leading `-`, or
just `-`), and after `--`; the reordering of `argv` that GNU `getopt` adds to
this is not modelled. -/
def getopt_calls (optstring : List Char) : List String → Nat → List GetoptRet × Nat
  | [], optind => ([], optind)
  | a :: rest, optind =>
    match a.data with
    | ['-', '-'] => ([], optind + 1)
    | '-' :: c :: cs =>
      ((getopt_cluster optstring (c :: cs)) ++ (getopt_calls optstring rest (optind + 1)).1,
        (getopt_calls optstring rest (optind + 1)).2)
    | _ => ([], optind)

/-! ## `main` -/

/-- What `main` knows after its option and argument handling (lines 121-142). -/
inductive Parsed
  /-- `main` has returned through `usage` -/
  | done (status : Status)
  /-- `try_connect`, `arg` and `port` are set and `main` goes on -/
  | go (try_connect : Bool) (arg port : String)
  deriving DecidableEq, Repr

/-- The `while ((c = getopt(...)) != EOF) switch (c)` loop of `main`, fed with
the results of the successive `getopt` calls; the list running out is `EOF`.
Returns the events so far and either the status `main` returned with, or the
final value of `try_connect`. -/
def main_options : List GetoptRet → Bool → List Event × (Status ⊕ Bool)
  | [], try_connect => ([], Sum.inr try_connect)
  | g :: gs, _ =>
    let d := match g.diag with
      | some ch => [Event.getopt_diag ch]
      | none => []
    if g.c = 'c' then
      let r := main_options gs true
      (d ++ r.1, r.2)
    else if g.c = 'h' ∨ g.c = '?' then
      (d ++ (usage 0).trace, Sum.inl (usage 0).status)
    else
      (d ++ (usage 1).trace, Sum.inl (usage 1).status)

/-- Lines 135-142 of `main`: the positional `arg` and `port` (`port` defaults to
`SERVICE_PORT` printed with `%d`); `argc` is `argv.length`. -/
def main_positional (argv : List String) (optind : Nat) (try_connect : Bool) :
    List Event × Parsed :=
  if optind ≥ argv.length then
    ((usage 1).trace, Parsed.done (usage 1).status)
  else if optind + 1 < argv.length then
    ([], Parsed.go try_connect (argv.getD optind "") (argv.getD (optind + 1) ""))
  else
    ([], Parsed.go try_connect (argv.getD optind "") (toString SERVICE_PORT))

/-- Lines 121-142 of `main`: the option loop over `getopt(argc, argv, "ch?")`
starting at `optind = 1`, then the positional arguments. -/
def main_args (argv : List String) : List Event × Parsed :=
  match main_options (getopt_calls "ch?".data (argv.drop 1) 1).1 false with
  | (evs, Sum.inl st) => (evs, Parsed.done st)
  | (evs, Sum.inr try_connect) =>
    (evs ++ (main_positional argv (getopt_calls "ch?".data (argv.drop 1) 1).2 try_connect).1,
      (main_positional argv (getopt_calls "ch?".data (argv.drop 1) 1).2 try_connect).2)

/-- How the work on one candidate ends, before the code at label `next`. -/
inductive Step
  /-- `err(1, ...)` after `socket` failed -/
  | fatal (evs : List Event)
  /-- `break` with the candidate accepted: `sd`, `errno` and `host` at that point -/
  | found (evs : List Event) (sd : Int) (errno : Int) (host : String)
  /-- control reaches label `next` (by the `goto`, or by the connect test) -/
  | next (evs : List Event) (sd : Int) (errno : Int) (host : String)
  deriving DecidableEq, Repr

/-- Lines 161-178 of the loop body, for the candidate `ai`. -/
def attempt (EINPROGRESS : Int) (arg port : String) (try_connect : Bool) (ai : Cand)
    (st : Locals) : Step :=
  let sd := ai.sys.socket.ret
  let e1 := ai.sys.socket.errno.getD st.errno
  if sd = -1 then
    Step.fatal [Event.socket ai.ai_family sd, Event.err 1 "Error creating client socket" e1]
  else
    let e2 := ai.sys.getnameinfo.errno.getD e1
    let evs := [Event.socket ai.ai_family sd, Event.getnameinfo ai.ai_addr ai.sys.getnameinfo.ret]
    if ai.sys.getnameinfo.ret ≠ 0 then
      Step.next evs sd e2 st.host
    else
      let host := ai.sys.host
      let evs := evs ++ [Event.stdout ("Found " ++ arg ++ " on address " ++ host ++ ":" ++ port ++ "\n")]
      if ¬ try_connect then
        Step.found evs sd e2 host
      else
        let t := set_timeouts ai.sys sd SOCKET_TIMEOUT e2
        let e4 := ai.sys.connect.errno.getD t.1
        let evs := evs ++ t.2 ++ [Event.connect sd ai.ai_addr ai.sys.connect.ret]
        if ai.sys.connect.ret ≠ 0 then
          let ce := check_error EINPROGRESS ai.sys sd SOCKET_TIMEOUT e4
          if ce.val ≠ 0 then
            Step.next (evs ++ ce.trace) sd ce.errno host
          else
            Step.found (evs ++ ce.trace) sd ce.errno host
        else
          Step.found evs sd e4 host

/-- The `while (1)` loop of `main` started on candidate `ai` whose `ai_next` chain
is `rest`, followed by lines 199-202 (`close`, `freeaddrinfo`, `return rc`). -/
def main_loop (EINPROGRESS : Int) (arg port : String) (try_connect : Bool) :
    Cand → List Cand → Locals → Out
  | ai, rest, st =>
    match attempt EINPROGRESS arg port try_connect ai st with
    | Step.fatal evs => ⟨evs, Status.exited 1⟩
    | Step.found evs sd _ _ =>
      ⟨evs ++ [Event.close sd, Event.freeaddrinfo], Status.returned st.rc⟩
    | Step.next evs sd errno host =>
      match rest with
      | ai' :: rest' =>
        let w := if errno = EINPROGRESS then
            Event.warnx ("Failed connecting to " ++ host ++ ", retrying ...")
          else
            Event.warn ("Failed connecting to " ++ host) errno
        (main_loop EINPROGRESS arg port try_connect ai' rest'
            ⟨errno, host, st.tries + 1, st.rc⟩).after (evs ++ [w, Event.close sd])
      | [] =>
        ⟨evs ++ [Event.warn ("Failed connecting to " ++ arg) errno,
                 Event.close sd, Event.freeaddrinfo], Status.returned 1⟩

/-- Lines 144-202 of `main`: resolve `arg`/`port`, then run the candidate loop.
The test `rc != 0 || !servinfo` is the first branch (`!servinfo`) together with
the `if` of the second. -/
def main_probe (env : Env) (try_connect : Bool) (arg port : String) : Out :=
  let r := env.getaddrinfo arg port
  let rc := r.1
  let pre := [Event.res_init, Event.getaddrinfo arg port rc]
  match r.2.1 with
  | [] =>
    ⟨pre ++ [Event.warnx ("Failed resolving hostname " ++ arg ++ ": " ++ env.gai_strerror rc)],
      Status.returned 1⟩
  | ai :: rest =>
    if rc ≠ 0 then
      ⟨pre ++ [Event.warnx ("Failed resolving hostname " ++ arg ++ ": " ++ env.gai_strerror rc)],
        Status.returned 1⟩
    else
      (main_loop env.EINPROGRESS arg port try_connect ai rest ⟨r.2.2, env.host0, 0, rc⟩).after pre

/-- `main(argc, argv)` with `argc = argv.length`. -/
def main (env : Env) (argv : List String) : Out :=
  match main_args argv with
  | (evs, Parsed.done st) => ⟨evs, st⟩
  | (evs, Parsed.go try_connect arg port) => (main_probe env try_connect arg port).after evs

/-! ## Observations on traces -/

/-- A "Found ... on address ..." line (line 173). -/
def Event.isFound : Event → Bool
  | Event.stdout s => "Found ".data.isPrefixOf s.data
  | _ => false

/-- A "Failed connecting to ..." warning (lines 185, 187, 192). -/
def Event.isFailedConnecting : Event → Bool
  | Event.warn m _ => "Failed connecting to ".data.isPrefixOf m.data
  | Event.warnx m => "Failed connecting to ".data.isPrefixOf m.data
  | _ => false

/-- A `socket` call that returned -1. -/
def Event.isSocketFailure : Event → Bool
  | Event.socket _ ret => ret = -1
  | _ => false

/-- A `getnameinfo` call that returned non-zero. -/
def Event.isLookupFailure : Event → Bool
  | Event.getnameinfo _ ret => ret ≠ 0
  | _ => false

/-- The address of a `connect` call. -/
def Event.connectAddr : Event → Option Nat
  | Event.connect _ a _ => some a
  | _ => none

/-- The address of a `getnameinfo` call. -/
def Event.lookupAddr : Event → Option Nat
  | Event.getnameinfo a _ => some a
  | _ => none

/-- The descriptor returned by a `socket` call. -/
def Event.socketRet : Event → Option Int
  | Event.socket _ sd => some sd
  | _ => none

/-- The events that can follow the `getnameinfo` call within `attempt`: output
lines, the two `set_timeouts` warnings, and calls on the socket just created. -/
def Event.inAttempt : Event → Bool
  | Event.stdout _ => true
  | Event.warn m _ => m = "Failed setting receive timeout socket option"
      ∨ m = "Failed setting send timeout socket option"
  | Event.setsockopt _ _ _ _ _ => true
  | Event.connect _ _ _ => true
  | Event.poll _ _ _ => true
  | Event.getsockopt _ _ => true
  | _ => false

/-- The events of option and argument handling: `getopt` diagnostics and the
usage text. -/
def Event.inArgs : Event → Bool
  | Event.getopt_diag _ => true
  | Event.stdout _ => true
  | _ => false

/-- The shapes a run of the candidate loop can have, as a trace and a final
status (`arg` is the host argument, `rc` the value of `rc` on entry):
`socket` fails; a candidate is accepted; the last candidate fails (its reverse
lookup, or its connection); a candidate fails and the loop goes on. -/
inductive LoopRun (arg : String) (rc : Int) : List Event → Status → Prop
  | fatal (fam e : Int) :
      LoopRun arg rc [Event.socket fam (-1), Event.err 1 "Error creating client socket" e]
        (Status.exited 1)
  | found (fam sd : Int) (addr : Nat) (tl : List Event) :
      sd ≠ -1 → (∀ x ∈ tl, x.inAttempt = true) →
      LoopRun arg rc
        (Event.socket fam sd :: Event.getnameinfo addr 0 :: (tl ++ [Event.close sd, Event.freeaddrinfo]))
        (Status.returned rc)
  | last_lookup (fam sd r e : Int) (addr : Nat) :
      sd ≠ -1 → r ≠ 0 →
      LoopRun arg rc
        [Event.socket fam sd, Event.getnameinfo addr r,
          Event.warn ("Failed connecting to " ++ arg) e, Event.close sd, Event.freeaddrinfo]
        (Status.returned 1)
  | last_connect (fam sd e : Int) (addr : Nat) (tl : List Event) :
      sd ≠ -1 → (∀ x ∈ tl, x.inAttempt = true) →
      LoopRun arg rc
        (Event.socket fam sd :: Event.getnameinfo addr 0 :: (tl ++
          [Event.warn ("Failed connecting to " ++ arg) e, Event.close sd, Event.freeaddrinfo]))
        (Status.returned 1)
  | next_lookup (fam sd r : Int) (addr : Nat) (w : Event) (t : List Event) (s : Status) :
      sd ≠ -1 → r ≠ 0 → w.isFailedConnecting = true → LoopRun arg rc t s →
      LoopRun arg rc
        (Event.socket fam sd :: Event.getnameinfo addr r :: w :: Event.close sd :: t) s
  | next_connect (fam sd : Int) (addr : Nat) (tl : List Event) (w : Event) (t : List Event)
      (s : Status) :
      sd ≠ -1 → (∀ x ∈ tl, x.inAttempt = true) → w.isFailedConnecting = true →
      LoopRun arg rc t s →
      LoopRun arg rc
        (Event.socket fam sd :: Event.getnameinfo addr 0 :: (tl ++ w :: Event.close sd :: t)) s

/-- After every event of `t` that satisfies `P`, the rest of `t` satisfies `Q`. -/
def AtEach (P : Event → Bool) (Q : List Event → Prop) (t : List Event) : Prop :=
  ∀ pre e post, t = pre ++ e :: post → P e = true → Q post

/-- Resources held by the process: the socket descriptor that is open, if any,
and whether the resolved list has been freed. -/
structure Res where
  opened : Option Int
  freed : Bool
  deriving DecidableEq, Repr

/-- Effect of one event on the resources; `none` when the event breaks the
discipline: a socket created while another is open or after the list was
freed, a `close` of a descriptor that is not the open one, the list freed
twice or while a socket is open. -/
def Res.step (s : Res) : Event → Option Res
  | Event.socket _ sd =>
    if sd = -1 then some s
    else if s.opened = none ∧ s.freed = false then some ⟨some sd, s.freed⟩ else none
  | Event.close sd => if s.opened = some sd then some ⟨none, s.freed⟩ else none
  | Event.freeaddrinfo => if s.opened = none ∧ s.freed = false then some ⟨none, true⟩ else none
  | _ => some s

/-- Run `Res.step` along a trace. -/
def Res.run : Res → List Event → Option Res
  | s, [] => some s
  | s, e :: t =>
    match s.step e with
    | some s' => Res.run s' t
    | none => none

/-! ## Sample environments -/

/-- Replies of a reachable address: every call succeeds. -/
def ex_ok (sd : Int) (host : String) : Replies :=
  ⟨⟨sd, none⟩, ⟨0, none⟩, host, ⟨0, none⟩, ⟨0, none⟩, ⟨0, none⟩, ⟨1, none⟩, ⟨0, none⟩, 0⟩

/-- Replies of an address that refuses the connection (`ECONNREFUSED` = 111). -/
def ex_refused (sd : Int) (host : String) : Replies :=
  ⟨⟨sd, none⟩, ⟨0, none⟩, host, ⟨0, none⟩, ⟨0, none⟩, ⟨-1, some 111⟩, ⟨0, none⟩, ⟨0, none⟩, 0⟩

/-- Replies of an address whose `connect` reports `EINPROGRESS` (115) and whose
handshake then completes: `poll` returns 1 and the pending error is 0. -/
def ex_inprogress (sd : Int) (host : String) : Replies :=
  ⟨⟨sd, none⟩, ⟨0, none⟩, host, ⟨0, none⟩, ⟨0, none⟩, ⟨-1, some 115⟩, ⟨1, none⟩, ⟨0, none⟩, 0⟩

/-- Replies of an address whose reverse lookup fails (`EAI_FAMILY` = -6). -/
def ex_nolookup (sd : Int) : Replies :=
  ⟨⟨sd, none⟩, ⟨-6, none⟩, "", ⟨0, none⟩, ⟨0, none⟩, ⟨0, none⟩, ⟨1, none⟩, ⟨0, none⟩, 0⟩

/-- Replies when no socket can be created (`EMFILE` = 24). -/
def ex_nosocket : Replies :=
  ⟨⟨-1, some 24⟩, ⟨0, none⟩, "", ⟨0, none⟩, ⟨0, none⟩, ⟨0, none⟩, ⟨1, none⟩, ⟨0, none⟩, 0⟩

/-- A Linux environment (`EINPROGRESS` = 115) whose resolver answers every
query with return code `rc` and the list `cands`. -/
def ex_env (rc : Int) (cands : List Cand) : Env :=
  ⟨115, fun _ _ => (rc, cands, 0), fun _ => "Name or service not known", ""⟩

/-! ## Option and argument handling -/

theorem getopt_cluster_spec (os : List Char) (cs : List Char) :
    ∀ g ∈ getopt_cluster os cs, (g.diag = none ∧ g.c ∈ os) ∨ g.c = '?' := by
  induction cs with
  | nil => intro g hg; simp [getopt_cluster] at hg
  | cons c cs ih =>
    intro g hg
    rw [getopt_cluster, List.mem_cons] at hg
    rcases hg with h | h
    · by_cases hc : c ∈ os ∧ c ≠ ':'
      · rw [if_pos hc] at h
        subst h
        exact Or.inl ⟨rfl, hc.1⟩
      · rw [if_neg hc] at h
        subst h
        exact Or.inr rfl
    · exact ih g h

theorem getopt_calls_spec (os : List Char) (args : List String) :
    ∀ (n : Nat), ∀ g ∈ (getopt_calls os args n).1, (g.diag = none ∧ g.c ∈ os) ∨ g.c = '?' := by
  induction args with
  | nil => intro n g hg; simp [getopt_calls] at hg
  | cons a rest ih =>
    intro n g hg
    rw [getopt_calls] at hg
    split at hg
    · simp at hg
    · rw [List.mem_append] at hg
      rcases hg with h | h
      · exact getopt_cluster_spec os _ g h
      · exact ih _ g h
    · simp at hg

theorem main_options_inArgs (gs : List GetoptRet) :
    ∀ (tc : Bool), ∀ e ∈ (main_options gs tc).1, e.inArgs = true := by
  induction gs with
  | nil => intro tc e he; simp [main_options] at he
  | cons g gs ih =>
    intro tc e he
    have hd : ∀ x ∈ (match g.diag with
        | some ch => [Event.getopt_diag ch]
        | none => []), x.inArgs = true := by
      intro x hx
      split at hx
      · rw [List.mem_singleton] at hx; rw [hx]; rfl
      · simp at hx
    simp only [main_options] at he
    split at he
    · rw [List.mem_append] at he
      rcases he with h | h
      · exact hd e h
      · exact ih true e h
    · split at he <;>
      · rw [List.mem_append] at he
        rcases he with h | h
        · exact hd e h
        · simp [usage] at h
          rw [h]; rfl

theorem main_options_go (gs : List GetoptRet)
    (hgs : ∀ g ∈ gs, (g.diag = none ∧ g.c ∈ "ch?".data) ∨ g.c = '?') :
    ∀ (tc b : Bool), (main_options gs tc).2 = Sum.inr b → (main_options gs tc).1 = [] := by
  induction gs with
  | nil => intro tc b _; rfl
  | cons g gs ih =>
    intro tc b h
    simp only [main_options] at h ⊢
    by_cases hc : g.c = 'c'
    · rw [if_pos hc] at h ⊢
      have hdiag : g.diag = none := by
        rcases hgs g (List.mem_cons_self _ _) with h1 | h1
        · exact h1.1
        · rw [hc] at h1
          exact absurd h1 (by decide)
      simp only [hdiag, List.nil_append]
      exact ih (fun x hx => hgs x (List.mem_cons_of_mem _ hx)) true b h
    · rw [if_neg hc] at h
      split at h <;> simp at h

theorem main_positional_inArgs (argv : List String) (optind : Nat) (tc : Bool) :
    ∀ e ∈ (main_positional argv optind tc).1, e.inArgs = true := by
  intro e he
  unfold main_positional at he
  split at he
  · simp [usage] at he
    rw [he]; rfl
  · split at he <;> simp at he

theorem main_positional_go (argv : List String) (optind : Nat) (tc b : Bool) (arg port : String)
    (h : (main_positional argv optind tc).2 = Parsed.go b arg port) :
    (main_positional argv optind tc).1 = [] := by
  unfold main_positional at h ⊢
  split at h
  · simp at h
  · rename_i h1
    rw [if_neg h1]
    split <;> rfl

theorem main_args_inArgs (argv : List String) : ∀ e ∈ (main_args argv).1, e.inArgs = true := by
  intro e he
  unfold main_args at he
  have key := main_options_inArgs (getopt_calls "ch?".data (argv.drop 1) 1).1 false
  generalize main_options (getopt_calls "ch?".data (argv.drop 1) 1).1 false = r at he key
  obtain ⟨evs, x⟩ := r
  cases x with
  | inl st => exact key e he
  | inr tc =>
    simp only [List.mem_append] at he
    rcases he with h | h
    · exact key e h
    · exact main_positional_inArgs _ _ _ e h

theorem main_args_go (argv : List String) (tc : Bool) (arg port : String)
    (h : (main_args argv).2 = Parsed.go tc arg port) : (main_args argv).1 = [] := by
  unfold main_args at h ⊢
  have key := main_options_go (getopt_calls "ch?".data (argv.drop 1) 1).1
    (getopt_calls_spec _ _ 1) false
  generalize main_options (getopt_calls "ch?".data (argv.drop 1) 1).1 false = r at h key ⊢
  obtain ⟨evs, x⟩ := r
  cases x with
  | inl st => simp at h
  | inr b =>
    have hevs : evs = [] := key b rfl
    subst hevs
    simp only [List.nil_append] at h ⊢
    exact main_positional_go _ _ _ _ _ _ h

/-- Once options and arguments are accepted, `main` is `main_probe`. -/
theorem main_eq_probe (env : Env) (argv : List String) (tc : Bool) (arg port : String)
    (h : (main_args argv).2 = Parsed.go tc arg port) :
    main env argv = main_probe env tc arg port := by
  have h1 := main_args_go argv tc arg port h
  unfold main
  generalize main_args argv = r at h h1
  obtain ⟨evs, x⟩ := r
  simp only at h h1
  subst h h1
  rfl

/-- When `main` returns from its option and argument handling, the trace has
only `getopt` diagnostics and the usage text. -/
theorem main_done (env : Env) (argv : List String) (st : Status)
    (h : (main_args argv).2 = Parsed.done st) :
    main env argv = ⟨(main_args argv).1, st⟩ := by
  unfold main
  generalize main_args argv = r at h
  obtain ⟨evs, x⟩ := r
  simp only at h
  subst h
  rfl

/-! ## The parts of `main` -/

theorem after_trace (evs : List Event) (o : Out) : (o.after evs).trace = evs ++ o.trace := rfl

theorem after_status (evs : List Event) (o : Out) : (o.after evs).status = o.status := rfl

theorem soerror_trace (r : Replies) (sd errno : Int) :
    (soerror r sd errno).trace = [Event.getsockopt sd r.getsockopt.ret] := by
  unfold soerror
  split <;> rfl

theorem soerror_val (r : Replies) (sd errno : Int) :
    (soerror r sd errno).val = 0 ↔ (r.getsockopt.ret = 0 ∧ r.so_error = 0) := by
  unfold soerror
  by_cases h : r.getsockopt.ret = 0 <;> simp [h]

theorem check_error_trace (E : Int) (r : Replies) (sd msec errno : Int) :
    (check_error E r sd msec errno).trace =
      if E = errno then
        [Event.stdout ("Waiting (" ++ toString (msec.tdiv 1000)
            ++ " sec) for three-way handshake to complete ...\n"),
          Event.poll sd msec r.poll.ret]
        ++ (if r.poll.ret > 0 then
              Event.getsockopt sd r.getsockopt.ret
                :: (if r.getsockopt.ret = 0 ∧ r.so_error = 0 then [Event.stdout "Connected.\n"] else [])
            else [])
      else [] := by
  unfold check_error
  by_cases h1 : E = errno
  · by_cases h2 : r.poll.ret > 0
    · by_cases h3 : (soerror r sd (r.poll.errno.getD errno)).val = 0
      · have h3' := (soerror_val _ _ _).1 h3
        simp [h1, h2, h3, h3', soerror_trace]
      · have h3' : ¬ (r.getsockopt.ret = 0 ∧ r.so_error = 0) :=
          fun h => h3 ((soerror_val _ _ _).2 h)
        simp [h1, h2, h3, h3', soerror_trace]
    · simp [h1, h2]
  · simp [h1]

theorem check_error_val (E : Int) (r : Replies) (sd msec errno : Int) :
    (check_error E r sd msec errno).val = 0
      ↔ (errno = E ∧ r.poll.ret > 0 ∧ r.getsockopt.ret = 0 ∧ r.so_error = 0) := by
  unfold check_error
  by_cases h1 : E = errno
  · by_cases h2 : r.poll.ret > 0
    · by_cases h3 : (soerror r sd (r.poll.errno.getD errno)).val = 0
      · have h3' := (soerror_val _ _ _).1 h3
        simp [h1, h2, h3, h3']
      · have h3' : ¬ (r.getsockopt.ret = 0 ∧ r.so_error = 0) :=
          fun h => h3 ((soerror_val _ _ _).2 h)
        simp [h1, h2, h3]
        exact fun a b => h3' ⟨a, b⟩
    · simp [h1, h2]
  · simp [h1]
    exact fun h => absurd h.symm h1

theorem check_error_zero_or_one (E : Int) (r : Replies) (sd msec errno : Int) :
    (check_error E r sd msec errno).val = 0 ∨ (check_error E r sd msec errno).val = 1 := by
  unfold check_error
  by_cases h1 : E = errno
  · by_cases h2 : r.poll.ret > 0
    · by_cases h3 : (soerror r sd (r.poll.errno.getD errno)).val = 0
      · simp [h1, h2, h3]
      · simp [h1, h2, h3]
    · simp [h1, h2]
  · simp [h1]

theorem check_error_inAttempt (E : Int) (r : Replies) (sd msec errno : Int) :
    ∀ e ∈ (check_error E r sd msec errno).trace, e.inAttempt = true := by
  intro e he
  rw [check_error_trace] at he
  split at he
  · simp only [List.mem_append, List.mem_cons, List.mem_singleton] at he
    rcases he with (h | h | h) | h
    · subst h; rfl
    · subst h; rfl
    · simp at h
    · split at h
      · simp only [List.mem_cons] at h
        rcases h with h | h
        · subst h; rfl
        · split at h
          · simp at h; subst h; rfl
          · simp at h
      · simp at h
  · simp at he

theorem set_timeouts_inAttempt (r : Replies) (sd timeout errno : Int) :
    ∀ e ∈ (set_timeouts r sd timeout errno).2, e.inAttempt = true := by
  intro e he
  unfold set_timeouts at he
  simp only [List.mem_append, List.mem_singleton] at he
  rcases he with ((h | h) | h) | h
  · subst h; rfl
  · split at h
    · simp at h; subst h; simp [Event.inAttempt]
    · simp at h
  · subst h; rfl
  · split at h
    · simp at h; subst h; simp [Event.inAttempt]
    · simp at h

theorem attempt_fatal (E : Int) (arg port : String) (tc : Bool) (ai : Cand) (st : Locals)
    (hs : ai.sys.socket.ret = -1) :
    attempt E arg port tc ai st = Step.fatal [Event.socket ai.ai_family (-1),
      Event.err 1 "Error creating client socket" (ai.sys.socket.errno.getD st.errno)] := by
  simp [attempt, hs]

theorem attempt_lookup_failed (E : Int) (arg port : String) (tc : Bool) (ai : Cand) (st : Locals)
    (hs : ai.sys.socket.ret ≠ -1) (hg : ai.sys.getnameinfo.ret ≠ 0) :
    attempt E arg port tc ai st = Step.next
      [Event.socket ai.ai_family ai.sys.socket.ret,
        Event.getnameinfo ai.ai_addr ai.sys.getnameinfo.ret]
      ai.sys.socket.ret
      (ai.sys.getnameinfo.errno.getD (ai.sys.socket.errno.getD st.errno)) st.host := by
  simp [attempt, hs, hg]

theorem attempt_resolve_only (E : Int) (arg port : String) (ai : Cand) (st : Locals)
    (hs : ai.sys.socket.ret ≠ -1) (hg : ai.sys.getnameinfo.ret = 0) :
    attempt E arg port false ai st = Step.found
      [Event.socket ai.ai_family ai.sys.socket.ret, Event.getnameinfo ai.ai_addr 0,
        Event.stdout ("Found " ++ arg ++ " on address " ++ ai.sys.host ++ ":" ++ port ++ "\n")]
      ai.sys.socket.ret
      (ai.sys.getnameinfo.errno.getD (ai.sys.socket.errno.getD st.errno)) ai.sys.host := by
  simp [attempt, hs, hg]

/-- In connect mode, once the reverse lookup has succeeded. -/
theorem attempt_connect (E : Int) (arg port : String) (ai : Cand) (st : Locals)
    (hs : ai.sys.socket.ret ≠ -1) (hg : ai.sys.getnameinfo.ret = 0) :
    attempt E arg port true ai st =
      if ai.sys.connect.ret ≠ 0 then
        if (check_error E ai.sys ai.sys.socket.ret SOCKET_TIMEOUT
            (ai.sys.connect.errno.getD (set_timeouts ai.sys ai.sys.socket.ret SOCKET_TIMEOUT
              (ai.sys.getnameinfo.errno.getD (ai.sys.socket.errno.getD st.errno))).1)).val ≠ 0 then
          Step.next
            ([Event.socket ai.ai_family ai.sys.socket.ret, Event.getnameinfo ai.ai_addr 0,
              Event.stdout ("Found " ++ arg ++ " on address " ++ ai.sys.host ++ ":" ++ port ++ "\n")]
              ++ (set_timeouts ai.sys ai.sys.socket.ret SOCKET_TIMEOUT
                (ai.sys.getnameinfo.errno.getD (ai.sys.socket.errno.getD st.errno))).2
              ++ [Event.connect ai.sys.socket.ret ai.ai_addr ai.sys.connect.ret]
              ++ (check_error E ai.sys ai.sys.socket.ret SOCKET_TIMEOUT
                (ai.sys.connect.errno.getD (set_timeouts ai.sys ai.sys.socket.ret SOCKET_TIMEOUT
                  (ai.sys.getnameinfo.errno.getD (ai.sys.socket.errno.getD st.errno))).1)).trace)
            ai.sys.socket.ret
            (check_error E ai.sys ai.sys.socket.ret SOCKET_TIMEOUT
              (ai.sys.connect.errno.getD (set_timeouts ai.sys ai.sys.socket.ret SOCKET_TIMEOUT
                (ai.sys.getnameinfo.errno.getD (ai.sys.socket.errno.getD st.errno))).1)).errno
            ai.sys.host
        else
          Step.found
            ([Event.socket ai.ai_family ai.sys.socket.ret, Event.getnameinfo ai.ai_addr 0,
              Event.stdout ("Found " ++ arg ++ " on address " ++ ai.sys.host ++ ":" ++ port ++ "\n")]
              ++ (set_timeouts ai.sys ai.sys.socket.ret SOCKET_TIMEOUT
                (ai.sys.getnameinfo.errno.getD (ai.sys.socket.errno.getD st.errno))).2
              ++ [Event.connect ai.sys.socket.ret ai.ai_addr ai.sys.connect.ret]
              ++ (check_error E ai.sys ai.sys.socket.ret SOCKET_TIMEOUT
                (ai.sys.connect.errno.getD (set_timeouts ai.sys ai.sys.socket.ret SOCKET_TIMEOUT
                  (ai.sys.getnameinfo.errno.getD (ai.sys.socket.errno.getD st.errno))).1)).trace)
            ai.sys.socket.ret
            (check_error E ai.sys ai.sys.socket.ret SOCKET_TIMEOUT
              (ai.sys.connect.errno.getD (set_timeouts ai.sys ai.sys.socket.ret SOCKET_TIMEOUT
                (ai.sys.getnameinfo.errno.getD (ai.sys.socket.errno.getD st.errno))).1)).errno
            ai.sys.host
      else
        Step.found
          ([Event.socket ai.ai_family ai.sys.socket.ret, Event.getnameinfo ai.ai_addr 0,
            Event.stdout ("Found " ++ arg ++ " on address " ++ ai.sys.host ++ ":" ++ port ++ "\n")]
            ++ (set_timeouts ai.sys ai.sys.socket.ret SOCKET_TIMEOUT
              (ai.sys.getnameinfo.errno.getD (ai.sys.socket.errno.getD st.errno))).2
            ++ [Event.connect ai.sys.socket.ret ai.ai_addr ai.sys.connect.ret])
          ai.sys.socket.ret
          (ai.sys.connect.errno.getD (set_timeouts ai.sys ai.sys.socket.ret SOCKET_TIMEOUT
            (ai.sys.getnameinfo.errno.getD (ai.sys.socket.errno.getD st.errno))).1)
          ai.sys.host := by
  simp only [attempt, if_neg hs, hg, ne_eq, not_true_eq_false, not_false_eq_true, if_false,
    if_true, Bool.not_eq_true]
  rfl

/-- Every way the work on one candidate can go: `socket` fails; the reverse
lookup fails; or the lookup succeeds and only events of `Event.inAttempt` follow
it, the candidate being accepted or (in connect mode only) handed to `next`. -/
theorem attempt_cases (E : Int) (arg port : String) (tc : Bool) (ai : Cand) (st : Locals) :
    (ai.sys.socket.ret = -1 ∧
      attempt E arg port tc ai st = Step.fatal [Event.socket ai.ai_family (-1),
        Event.err 1 "Error creating client socket" (ai.sys.socket.errno.getD st.errno)])
    ∨ (ai.sys.socket.ret ≠ -1 ∧ ai.sys.getnameinfo.ret ≠ 0 ∧
      attempt E arg port tc ai st = Step.next
        [Event.socket ai.ai_family ai.sys.socket.ret,
          Event.getnameinfo ai.ai_addr ai.sys.getnameinfo.ret]
        ai.sys.socket.ret
        (ai.sys.getnameinfo.errno.getD (ai.sys.socket.errno.getD st.errno)) st.host)
    ∨ (ai.sys.socket.ret ≠ -1 ∧ ai.sys.getnameinfo.ret = 0 ∧
      ∃ tl e, (∀ x ∈ tl, x.inAttempt = true) ∧
        (attempt E arg port tc ai st = Step.found
            (Event.socket ai.ai_family ai.sys.socket.ret
              :: Event.getnameinfo ai.ai_addr 0 :: tl) ai.sys.socket.ret e ai.sys.host
          ∨ (tc = true ∧ attempt E arg port tc ai st = Step.next
            (Event.socket ai.ai_family ai.sys.socket.ret
              :: Event.getnameinfo ai.ai_addr 0 :: tl) ai.sys.socket.ret e ai.sys.host))) := by
  by_cases hs : ai.sys.socket.ret = -1
  · exact Or.inl ⟨hs, attempt_fatal E arg port tc ai st hs⟩
  by_cases hg : ai.sys.getnameinfo.ret = 0
  swap
  · exact Or.inr (Or.inl ⟨hs, hg, attempt_lookup_failed E arg port tc ai st hs hg⟩)
  refine Or.inr (Or.inr ⟨hs, hg, ?_⟩)
  have hfound : (Event.stdout ("Found " ++ arg ++ " on address " ++ ai.sys.host ++ ":" ++ port
      ++ "\n")).inAttempt = true := rfl
  cases tc with
  | false =>
    refine ⟨_, _, ?_, Or.inl (attempt_resolve_only E arg port ai st hs hg)⟩
    intro x hx
    rw [List.mem_singleton] at hx
    rw [hx]
    exact hfound
  | true =>
    rw [attempt_connect E arg port ai st hs hg]
    by_cases hc : ai.sys.connect.ret = 0
    · rw [if_neg (not_not.mpr hc)]
      refine ⟨[Event.stdout ("Found " ++ arg ++ " on address " ++ ai.sys.host ++ ":"
            ++ port ++ "\n")]
          ++ (set_timeouts ai.sys ai.sys.socket.ret SOCKET_TIMEOUT
              (ai.sys.getnameinfo.errno.getD (ai.sys.socket.errno.getD st.errno))).2
          ++ [Event.connect ai.sys.socket.ret ai.ai_addr ai.sys.connect.ret], _, ?_, Or.inl rfl⟩
      intro x hx
      simp only [List.mem_append, List.mem_singleton] at hx
      rcases hx with (h | h) | h
      · rw [h]; exact hfound
      · exact set_timeouts_inAttempt _ _ _ _ _ h
      · rw [h]; rfl
    · rw [if_pos hc]
      have hmem : ∀ x ∈ [Event.stdout ("Found " ++ arg ++ " on address " ++ ai.sys.host ++ ":"
            ++ port ++ "\n")]
          ++ (set_timeouts ai.sys ai.sys.socket.ret SOCKET_TIMEOUT
              (ai.sys.getnameinfo.errno.getD (ai.sys.socket.errno.getD st.errno))).2
          ++ [Event.connect ai.sys.socket.ret ai.ai_addr ai.sys.connect.ret]
          ++ (check_error E ai.sys ai.sys.socket.ret SOCKET_TIMEOUT
              (ai.sys.connect.errno.getD (set_timeouts ai.sys ai.sys.socket.ret SOCKET_TIMEOUT
                (ai.sys.getnameinfo.errno.getD (ai.sys.socket.errno.getD st.errno))).1)).trace,
          x.inAttempt = true := by
        intro x hx
        simp only [List.mem_append, List.mem_singleton] at hx
        rcases hx with ((h | h) | h) | h
        · rw [h]; exact hfound
        · exact set_timeouts_inAttempt _ _ _ _ _ h
        · rw [h]; rfl
        · exact check_error_inAttempt _ _ _ _ _ _ h
      split
      · exact ⟨_, _, hmem, Or.inr ⟨rfl, rfl⟩⟩
      · exact ⟨_, _, hmem, Or.inl rfl⟩

/-! ## The candidate loop, one step at a time -/

theorem main_loop_fatal (E : Int) (arg port : String) (tc : Bool) (ai : Cand) (rest : List Cand)
    (st : Locals) (evs : List Event) (h : attempt E arg port tc ai st = Step.fatal evs) :
    main_loop E arg port tc ai rest st = ⟨evs, Status.exited 1⟩ := by
  cases rest <;> simp [main_loop, h]

theorem main_loop_found (E : Int) (arg port : String) (tc : Bool) (ai : Cand) (rest : List Cand)
    (st : Locals) (evs : List Event) (sd e : Int) (host : String)
    (h : attempt E arg port tc ai st = Step.found evs sd e host) :
    main_loop E arg port tc ai rest st
      = ⟨evs ++ [Event.close sd, Event.freeaddrinfo], Status.returned st.rc⟩ := by
  cases rest <;> simp [main_loop, h]

theorem main_loop_last (E : Int) (arg port : String) (tc : Bool) (ai : Cand)
    (st : Locals) (evs : List Event) (sd e : Int) (host : String)
    (h : attempt E arg port tc ai st = Step.next evs sd e host) :
    main_loop E arg port tc ai [] st
      = ⟨evs ++ [Event.warn ("Failed connecting to " ++ arg) e, Event.close sd, Event.freeaddrinfo],
          Status.returned 1⟩ := by
  simp [main_loop, h]

theorem main_loop_next (E : Int) (arg port : String) (tc : Bool) (ai ai' : Cand)
    (rest : List Cand) (st : Locals) (evs : List Event) (sd e : Int) (host : String)
    (h : attempt E arg port tc ai st = Step.next evs sd e host) :
    main_loop E arg port tc ai (ai' :: rest) st
      = (main_loop E arg port tc ai' rest ⟨e, host, st.tries + 1, st.rc⟩).after
          (evs ++ [if e = E then Event.warnx ("Failed connecting to " ++ host ++ ", retrying ...")
                    else Event.warn ("Failed connecting to " ++ host) e,
                   Event.close sd]) := by
  rw [main_loop]
  simp only [h]

/-! ## Reasoning about every occurrence of an event in a trace -/

theorem atEach_nil (P : Event → Bool) (Q : List Event → Prop) : AtEach P Q [] := by
  intro pre e post h
  simp at h

theorem atEach_cons (P : Event → Bool) (Q : List Event → Prop) (e0 : Event) (t : List Event)
    (h0 : P e0 = true → Q t) (ht : AtEach P Q t) : AtEach P Q (e0 :: t) := by
  intro pre e post h hP
  cases pre with
  | nil =>
    simp only [List.nil_append, List.cons.injEq] at h
    obtain ⟨h1, h2⟩ := h
    subst h1 h2
    exact h0 hP
  | cons p pre' =>
    simp only [List.cons_append, List.cons.injEq] at h
    exact ht pre' e post h.2 hP

theorem atEach_skip (P : Event → Bool) (Q : List Event → Prop) (e0 : Event) (t : List Event)
    (h0 : P e0 = false) (ht : AtEach P Q t) : AtEach P Q (e0 :: t) :=
  atEach_cons P Q e0 t (fun h => by rw [h0] at h; exact absurd h (by decide)) ht

theorem atEach_append (P : Event → Bool) (Q : List Event → Prop) (l t : List Event)
    (hl : ∀ x ∈ l, P x = false) (ht : AtEach P Q t) : AtEach P Q (l ++ t) := by
  induction l with
  | nil => exact ht
  | cons a l ih =>
    exact atEach_skip P Q a (l ++ t) (hl a (List.mem_cons_self _ _))
      (ih (fun x hx => hl x (List.mem_cons_of_mem _ hx)))

theorem atEach_none (P : Event → Bool) (Q : List Event → Prop) (t : List Event)
    (hl : ∀ x ∈ t, P x = false) : AtEach P Q t := by
  have := atEach_append P Q t [] hl (atEach_nil P Q)
  rwa [List.append_nil] at this

/-! ## The candidate loop as a whole -/

theorem failed_connecting_warning (E e : Int) (host : String) :
    (if e = E then Event.warnx ("Failed connecting to " ++ host ++ ", retrying ...")
      else Event.warn ("Failed connecting to " ++ host) e).isFailedConnecting = true := by
  split <;> simp [Event.isFailedConnecting, String.data_append]

/-- Every run of the candidate loop has one of the shapes of `LoopRun`. -/
theorem main_loop_run (E : Int) (arg port : String) (tc : Bool) (rest : List Cand) :
    ∀ (ai : Cand) (st : Locals),
      LoopRun arg st.rc (main_loop E arg port tc ai rest st).trace
        (main_loop E arg port tc ai rest st).status := by
  induction rest with
  | nil =>
    intro ai st
    rcases attempt_cases E arg port tc ai st with ⟨_, h⟩ | ⟨hs, hg, h⟩ | ⟨hs, _, tl, e, htl, h | ⟨_, h⟩⟩
    · rw [main_loop_fatal _ _ _ _ _ _ _ _ h]
      exact LoopRun.fatal _ _
    · rw [main_loop_last _ _ _ _ _ _ _ _ _ _ h]
      exact LoopRun.last_lookup _ _ _ _ _ hs hg
    · rw [main_loop_found _ _ _ _ _ _ _ _ _ _ _ h]
      exact LoopRun.found _ _ _ tl hs htl
    · rw [main_loop_last _ _ _ _ _ _ _ _ _ _ h]
      exact LoopRun.last_connect _ _ _ _ tl hs htl
  | cons ai' rest ih =>
    intro ai st
    rcases attempt_cases E arg port tc ai st with ⟨_, h⟩ | ⟨hs, hg, h⟩ | ⟨hs, _, tl, e, htl, h | ⟨_, h⟩⟩
    · rw [main_loop_fatal _ _ _ _ _ _ _ _ h]
      exact LoopRun.fatal _ _
    · rw [main_loop_next _ _ _ _ _ _ _ _ _ _ _ _ h]
      have := @LoopRun.next_lookup arg st.rc ai.ai_family _ _ ai.ai_addr _ _ _ hs hg
        (failed_connecting_warning E
          (ai.sys.getnameinfo.errno.getD (ai.sys.socket.errno.getD st.errno)) st.host)
        (ih ai' ⟨ai.sys.getnameinfo.errno.getD (ai.sys.socket.errno.getD st.errno), st.host,
          st.tries + 1, st.rc⟩)
      simpa [Out.after] using this
    · rw [main_loop_found _ _ _ _ _ _ _ _ _ _ _ h]
      exact LoopRun.found _ _ _ tl hs htl
    · rw [main_loop_next _ _ _ _ _ _ _ _ _ _ _ _ h]
      have := @LoopRun.next_connect arg st.rc ai.ai_family _ ai.ai_addr tl _ _ _ hs htl
        (failed_connecting_warning E e ai.sys.host) (ih ai' ⟨e, ai.sys.host, st.tries + 1, st.rc⟩)
      simpa [Out.after] using this

theorem main_probe_failed (env : Env) (tc : Bool) (arg port : String)
    (h : (env.getaddrinfo arg port).1 ≠ 0 ∨ (env.getaddrinfo arg port).2.1 = []) :
    main_probe env tc arg port =
      ⟨[Event.res_init, Event.getaddrinfo arg port (env.getaddrinfo arg port).1,
        Event.warnx ("Failed resolving hostname " ++ arg ++ ": "
          ++ env.gai_strerror (env.getaddrinfo arg port).1)], Status.returned 1⟩ := by
  unfold main_probe
  dsimp only
  split
  · rfl
  · rename_i ai rest hl
    rcases h with h | h
    · rw [if_pos h]
      rfl
    · rw [hl] at h
      exact absurd h (by simp)

theorem main_probe_loop (env : Env) (tc : Bool) (arg port : String) (ai : Cand) (rest : List Cand)
    (h0 : (env.getaddrinfo arg port).1 = 0) (hl : (env.getaddrinfo arg port).2.1 = ai :: rest) :
    main_probe env tc arg port =
      (main_loop env.EINPROGRESS arg port tc ai rest
        ⟨(env.getaddrinfo arg port).2.2, env.host0, 0, 0⟩).after
        [Event.res_init, Event.getaddrinfo arg port 0] := by
  unfold main_probe
  dsimp only
  rw [hl]
  simp only [h0, ne_eq, not_true_eq_false, if_false]

/-- The shapes of a run of `main`: it ends in option and argument handling; or
resolution fails; or the candidate loop runs after `res_init` and `getaddrinfo`. -/
theorem main_shape (env : Env) (argv : List String) :
    (∀ e ∈ (main env argv).trace, e.inArgs = true)
    ∨ (∃ arg port rc msg, (main env argv).trace
          = [Event.res_init, Event.getaddrinfo arg port rc, Event.warnx msg]
        ∧ (main env argv).status = Status.returned 1)
    ∨ (∃ arg port t, (main env argv).trace
          = Event.res_init :: Event.getaddrinfo arg port 0 :: t
        ∧ LoopRun arg 0 t (main env argv).status) := by
  cases hp : (main_args argv).2 with
  | done st =>
    left
    rw [main_done env argv st hp]
    exact main_args_inArgs argv
  | go tc arg port =>
    right
    rw [main_eq_probe env argv tc arg port hp]
    by_cases h : (env.getaddrinfo arg port).1 ≠ 0 ∨ (env.getaddrinfo arg port).2.1 = []
    · left
      rw [main_probe_failed env tc arg port h]
      exact ⟨_, _, _, _, rfl, rfl⟩
    · right
      rw [not_or, not_not] at h
      obtain ⟨h0, hl⟩ := h
      obtain ⟨ai, rest, hl⟩ := List.exists_cons_of_ne_nil hl
      rw [main_probe_loop env tc arg port ai rest h0 hl]
      exact ⟨arg, port, _, rfl, main_loop_run env.EINPROGRESS arg port tc rest ai
        ⟨(env.getaddrinfo arg port).2.2, env.host0, 0, 0⟩⟩

/-! ## Properties of every loop run -/

theorem inAttempt_not_socketFailure (x : Event) (h : x.inAttempt = true) :
    x.isSocketFailure = false := by
  cases x <;> simp [Event.inAttempt] at h <;> rfl

theorem inAttempt_not_lookupFailure (x : Event) (h : x.inAttempt = true) :
    x.isLookupFailure = false := by
  cases x <;> simp [Event.inAttempt] at h <;> rfl

theorem inAttempt_not_failedConnecting (x : Event) (h : x.inAttempt = true) :
    x.isFailedConnecting = false := by
  cases x <;> simp [Event.inAttempt] at h <;>
    first
    | rfl
    | (rcases h with h | h <;> subst h <;> simp only [Event.isFailedConnecting] <;> decide)

theorem failedConnecting_not_socketFailure (x : Event) (h : x.isFailedConnecting = true) :
    x.isSocketFailure = false := by
  cases x <;> simp [Event.isFailedConnecting] at h <;> rfl

theorem failedConnecting_not_lookupFailure (x : Event) (h : x.isFailedConnecting = true) :
    x.isLookupFailure = false := by
  cases x <;> simp [Event.isFailedConnecting] at h <;> rfl

theorem inArgs_not_socketFailure (x : Event) (h : x.inArgs = true) :
    x.isSocketFailure = false := by
  cases x <;> simp [Event.inArgs] at h <;> rfl

theorem inArgs_not_lookupFailure (x : Event) (h : x.inArgs = true) :
    x.isLookupFailure = false := by
  cases x <;> simp [Event.inArgs] at h <;> rfl

theorem socket_ok_not_failure (fam sd : Int) (h : sd ≠ -1) :
    (Event.socket fam sd).isSocketFailure = false := by
  simp [Event.isSocketFailure, h]

/-- A loop run starts with a `socket` call. -/
theorem loopRun_head (arg : String) (rc : Int) (t : List Event) (s : Status)
    (h : LoopRun arg rc t s) : ∃ fam sd t', t = Event.socket fam sd :: t' := by
  cases h <;> exact ⟨_, _, _, rfl⟩

/-- In a loop run, a failed `socket` call is followed by the `err` message and
nothing else, and the process exits with status 1. -/
theorem loopRun_socket_failure (arg : String) (rc : Int) (t : List Event) (s : Status)
    (h : LoopRun arg rc t s) :
    AtEach Event.isSocketFailure
      (fun post => s = Status.exited 1
        ∧ ∃ e, post = [Event.err 1 "Error creating client socket" e]) t := by
  induction h with
  | fatal fam e =>
    refine atEach_cons _ _ _ _ (fun _ => ⟨rfl, e, rfl⟩) (atEach_none _ _ _ ?_)
    intro x hx
    rw [List.mem_singleton] at hx
    rw [hx]; rfl
  | found fam sd addr tl hsd htl =>
    refine atEach_skip _ _ _ _ (socket_ok_not_failure fam sd hsd) (atEach_skip _ _ _ _ rfl ?_)
    refine atEach_append _ _ _ _ (fun x hx => inAttempt_not_socketFailure x (htl x hx))
      (atEach_none _ _ _ ?_)
    intro x hx
    simp only [List.mem_cons, List.mem_singleton, List.not_mem_nil, or_false] at hx
    rcases hx with h | h <;> rw [h] <;> rfl
  | last_lookup fam sd r e addr hsd hr =>
    refine atEach_skip _ _ _ _ (socket_ok_not_failure fam sd hsd) (atEach_none _ _ _ ?_)
    intro x hx
    simp only [List.mem_cons, List.mem_singleton, List.not_mem_nil, or_false] at hx
    rcases hx with h | h | h | h <;> rw [h] <;> rfl
  | last_connect fam sd e addr tl hsd htl =>
    refine atEach_skip _ _ _ _ (socket_ok_not_failure fam sd hsd) (atEach_skip _ _ _ _ rfl ?_)
    refine atEach_append _ _ _ _ (fun x hx => inAttempt_not_socketFailure x (htl x hx))
      (atEach_none _ _ _ ?_)
    intro x hx
    simp only [List.mem_cons, List.mem_singleton, List.not_mem_nil, or_false] at hx
    rcases hx with h | h | h <;> rw [h] <;> rfl
  | next_lookup fam sd r addr w t s hsd hr hw _ ih =>
    exact atEach_skip _ _ _ _ (socket_ok_not_failure fam sd hsd)
      (atEach_skip _ _ _ _ rfl
        (atEach_skip _ _ _ _ (failedConnecting_not_socketFailure w hw)
          (atEach_skip _ _ _ _ rfl ih)))
  | next_connect fam sd addr tl w t s hsd htl hw _ ih =>
    refine atEach_skip _ _ _ _ (socket_ok_not_failure fam sd hsd) (atEach_skip _ _ _ _ rfl ?_)
    exact atEach_append _ _ _ _ (fun x hx => inAttempt_not_socketFailure x (htl x hx))
      (atEach_skip _ _ _ _ (failedConnecting_not_socketFailure w hw)
        (atEach_skip _ _ _ _ rfl ih))

/-- In a loop run, a failed reverse lookup is followed by one "Failed connecting
to" warning and the `close` of the socket; then either the list is freed and
`main` returns 1, or the next candidate's `socket` call follows. -/
theorem loopRun_lookup_failure (arg : String) (rc : Int) (t : List Event) (s : Status)
    (h : LoopRun arg rc t s) :
    AtEach Event.isLookupFailure
      (fun post => ∃ w sd, w.isFailedConnecting = true
        ∧ ((post = [w, Event.close sd, Event.freeaddrinfo] ∧ s = Status.returned 1)
          ∨ ∃ fam sd' post', post = w :: Event.close sd :: Event.socket fam sd' :: post')) t := by
  induction h with
  | fatal fam e =>
    refine atEach_none _ _ _ ?_
    intro x hx
    simp only [List.mem_cons, List.mem_singleton, List.not_mem_nil, or_false] at hx
    rcases hx with h | h <;> rw [h] <;> rfl
  | found fam sd addr tl hsd htl =>
    refine atEach_skip _ _ _ _ rfl (atEach_skip _ _ _ _ rfl ?_)
    refine atEach_append _ _ _ _ (fun x hx => inAttempt_not_lookupFailure x (htl x hx))
      (atEach_none _ _ _ ?_)
    intro x hx
    simp only [List.mem_cons, List.mem_singleton, List.not_mem_nil, or_false] at hx
    rcases hx with h | h <;> rw [h] <;> rfl
  | last_lookup fam sd r e addr hsd hr =>
    refine atEach_skip _ _ _ _ rfl (atEach_cons _ _ _ _ (fun _ => ?_) (atEach_none _ _ _ ?_))
    · refine ⟨_, sd, ?_, Or.inl ⟨rfl, rfl⟩⟩
      simp [Event.isFailedConnecting, String.data_append]
    · intro x hx
      simp only [List.mem_cons, List.mem_singleton, List.not_mem_nil, or_false] at hx
      rcases hx with h | h | h <;> rw [h] <;> rfl
  | last_connect fam sd e addr tl hsd htl =>
    refine atEach_skip _ _ _ _ rfl (atEach_skip _ _ _ _ rfl ?_)
    refine atEach_append _ _ _ _ (fun x hx => inAttempt_not_lookupFailure x (htl x hx))
      (atEach_none _ _ _ ?_)
    intro x hx
    simp only [List.mem_cons, List.mem_singleton, List.not_mem_nil, or_false] at hx
    rcases hx with h | h | h <;> rw [h] <;> rfl
  | next_lookup fam sd r addr w t s hsd hr hw ht ih =>
    refine atEach_skip _ _ _ _ rfl (atEach_cons _ _ _ _ (fun _ => ?_)
      (atEach_skip _ _ _ _ (failedConnecting_not_lookupFailure w hw)
        (atEach_skip _ _ _ _ rfl ih)))
    obtain ⟨fam', sd', t', ht'⟩ := loopRun_head _ _ _ _ ht
    exact ⟨w, sd, hw, Or.inr ⟨fam', sd', t', by rw [ht']⟩⟩
  | next_connect fam sd addr tl w t s hsd htl hw _ ih =>
    refine atEach_skip _ _ _ _ rfl (atEach_skip _ _ _ _ rfl ?_)
    exact atEach_append _ _ _ _ (fun x hx => inAttempt_not_lookupFailure x (htl x hx))
      (atEach_skip _ _ _ _ (failedConnecting_not_lookupFailure w hw)
        (atEach_skip _ _ _ _ rfl ih))

/-- A property of what follows each event of a kind `P` that holds in every
loop run holds in every run of `main`, when no event outside the loop is of
kind `P`. -/
theorem main_atEach (P : Event → Bool) (Q : Status → List Event → Prop)
    (hargs : ∀ x : Event, x.inArgs = true → P x = false)
    (hinit : P Event.res_init = false)
    (hgai : ∀ a p r, P (Event.getaddrinfo a p r) = false)
    (hwarnx : ∀ m, P (Event.warnx m) = false)
    (hloop : ∀ arg t s, LoopRun arg 0 t s → AtEach P (Q s) t)
    (env : Env) (argv : List String) :
    AtEach P (Q (main env argv).status) (main env argv).trace := by
  rcases main_shape env argv with h | ⟨arg, port, rc, msg, h, _⟩ | ⟨arg, port, t, h, hrun⟩
  · exact atEach_none _ _ _ (fun x hx => hargs x (h x hx))
  · rw [h]
    refine atEach_none _ _ _ ?_
    intro x hx
    simp only [List.mem_cons, List.mem_singleton, List.not_mem_nil, or_false] at hx
    rcases hx with h | h | h <;> rw [h]
    · exact hinit
    · exact hgai _ _ _
    · exact hwarnx _
  · rw [h]
    exact atEach_skip _ _ _ _ hinit (atEach_skip _ _ _ _ (hgai _ _ _) (hloop arg t _ hrun))

/-! ## Resources -/

theorem res_step_inAttempt (s : Res) (x : Event) (h : x.inAttempt = true) : s.step x = some s := by
  cases x <;> simp [Event.inAttempt] at h <;> rfl

theorem res_step_failedConnecting (s : Res) (x : Event) (h : x.isFailedConnecting = true) :
    s.step x = some s := by
  cases x <;> simp [Event.isFailedConnecting] at h <;> rfl

theorem res_run_skip (s : Res) (l t : List Event) (hl : ∀ x ∈ l, x.inAttempt = true) :
    Res.run s (l ++ t) = Res.run s t := by
  induction l with
  | nil => rfl
  | cons a l ih =>
    rw [List.cons_append, Res.run, res_step_inAttempt s a (hl a (List.mem_cons_self _ _))]
    exact ih (fun x hx => hl x (List.mem_cons_of_mem _ hx))

theorem res_run_socket (fam sd : Int) (t : List Event) (hsd : sd ≠ -1) :
    Res.run ⟨none, false⟩ (Event.socket fam sd :: t) = Res.run ⟨some sd, false⟩ t := by
  simp [Res.run, Res.step, hsd]

theorem res_run_same (s : Res) (x : Event) (t : List Event) (h : s.step x = some s) :
    Res.run s (x :: t) = Res.run s t := by
  rw [Res.run, h]

theorem res_run_getnameinfo (s : Res) (addr : Nat) (r : Int) (t : List Event) :
    Res.run s (Event.getnameinfo addr r :: t) = Res.run s t := rfl

theorem res_run_warn (s : Res) (m : String) (e : Int) (t : List Event) :
    Res.run s (Event.warn m e :: t) = Res.run s t := rfl

theorem res_run_close (sd : Int) (f : Bool) (t : List Event) :
    Res.run ⟨some sd, f⟩ (Event.close sd :: t) = Res.run ⟨none, f⟩ t := by
  simp [Res.run, Res.step]

/-- A loop run that ends in `return rc` keeps the socket discipline and ends with
no socket open and the list freed. -/
theorem loopRun_resources (arg : String) (rc : Int) (t : List Event) (s : Status)
    (h : LoopRun arg rc t s) (r : Int) (hs : s = Status.returned r) :
    Res.run ⟨none, false⟩ t = some ⟨none, true⟩ := by
  induction h with
  | fatal fam e => simp at hs
  | found fam sd addr tl hsd htl =>
    rw [res_run_socket _ _ _ hsd, res_run_getnameinfo, res_run_skip _ _ _ htl, res_run_close]
    rfl
  | last_lookup fam sd r' e addr hsd hr =>
    rw [res_run_socket _ _ _ hsd, res_run_getnameinfo, res_run_warn, res_run_close]
    rfl
  | last_connect fam sd e addr tl hsd htl =>
    rw [res_run_socket _ _ _ hsd, res_run_getnameinfo, res_run_skip _ _ _ htl,
      res_run_warn, res_run_close]
    rfl
  | next_lookup fam sd r' addr w t s hsd hr hw _ ih =>
    rw [res_run_socket _ _ _ hsd, res_run_getnameinfo,
      res_run_same _ _ _ (res_step_failedConnecting _ w hw), res_run_close]
    exact ih hs
  | next_connect fam sd addr tl w t s hsd htl hw _ ih =>
    rw [res_run_socket _ _ _ hsd, res_run_getnameinfo, res_run_skip _ _ _ htl,
      res_run_same _ _ _ (res_step_failedConnecting _ w hw), res_run_close]
    exact ih hs

/-! ## Projections of a trace -/

theorem filterMap_none {β : Type} (f : Event → Option β) (l : List Event)
    (h : ∀ x ∈ l, f x = none) : l.filterMap f = [] := by
  induction l with
  | nil => rfl
  | cons a l ih =>
    rw [List.filterMap_cons, h a (List.mem_cons_self _ _)]
    exact ih (fun x hx => h x (List.mem_cons_of_mem _ hx))

theorem filter_none (p : Event → Bool) (l : List Event)
    (h : ∀ x ∈ l, p x = false) : l.filter p = [] := by
  induction l with
  | nil => rfl
  | cons a l ih =>
    rw [List.filter_cons, h a (List.mem_cons_self _ _)]
    exact ih (fun x hx => h x (List.mem_cons_of_mem _ hx))

theorem countP_none (p : Event → Bool) (l : List Event)
    (h : ∀ x ∈ l, p x = false) : l.countP p = 0 := by
  induction l with
  | nil => rfl
  | cons a l ih =>
    rw [List.countP_cons, h a (List.mem_cons_self _ _)]
    simpa using ih (fun x hx => h x (List.mem_cons_of_mem _ hx))

theorem inAttempt_socketRet (x : Event) (h : x.inAttempt = true) : x.socketRet = none := by
  cases x <;> simp [Event.inAttempt] at h <;> rfl

theorem inAttempt_lookupAddr (x : Event) (h : x.inAttempt = true) : x.lookupAddr = none := by
  cases x <;> simp [Event.inAttempt] at h <;> rfl

theorem found_line_isFound (arg host port : String) :
    (Event.stdout ("Found " ++ arg ++ " on address " ++ host ++ ":" ++ port ++ "\n")).isFound
      = true := by
  simp [Event.isFound, String.data_append]

theorem warning_isFound (E e : Int) (host : String) :
    (if e = E then Event.warnx ("Failed connecting to " ++ host ++ ", retrying ...")
      else Event.warn ("Failed connecting to " ++ host) e).isFound = false := by
  split <;> rfl

theorem warning_lookupAddr (E e : Int) (host : String) :
    (if e = E then Event.warnx ("Failed connecting to " ++ host ++ ", retrying ...")
      else Event.warn ("Failed connecting to " ++ host) e).lookupAddr = none := by
  split <;> rfl

theorem warning_socketRet (E e : Int) (host : String) :
    (if e = E then Event.warnx ("Failed connecting to " ++ host ++ ", retrying ...")
      else Event.warn ("Failed connecting to " ++ host) e).socketRet = none := by
  split <;> rfl

theorem warning_connectAddr (E e : Int) (host : String) :
    (if e = E then Event.warnx ("Failed connecting to " ++ host ++ ", retrying ...")
      else Event.warn ("Failed connecting to " ++ host) e).connectAddr = none := by
  split <;> rfl

theorem check_error_connectAddr (E : Int) (r : Replies) (sd msec errno : Int) :
    ∀ e ∈ (check_error E r sd msec errno).trace, e.connectAddr = none := by
  intro e he
  rw [check_error_trace] at he
  split at he
  · simp only [List.mem_append, List.mem_cons, List.mem_singleton] at he
    rcases he with (h | h | h) | h
    · subst h; rfl
    · subst h; rfl
    · simp at h
    · split at h
      · simp only [List.mem_cons] at h
        rcases h with h | h
        · subst h; rfl
        · split at h
          · simp at h; subst h; rfl
          · simp at h
      · simp at h
  · simp at he

theorem set_timeouts_connectAddr (r : Replies) (sd timeout errno : Int) :
    ∀ e ∈ (set_timeouts r sd timeout errno).2, e.connectAddr = none := by
  intro e he
  unfold set_timeouts at he
  simp only [List.mem_append, List.mem_singleton] at he
  rcases he with ((h | h) | h) | h
  · subst h; rfl
  · split at h
    · simp at h; subst h; rfl
    · simp at h
  · subst h; rfl
  · split at h
    · simp at h; subst h; rfl
    · simp at h

/-- In connect mode, a candidate whose connection attempt fails is handed to
`next` after exactly one `connect` call. -/
theorem attempt_connect_failed (E : Int) (arg port : String) (ai : Cand) (st : Locals)
    (hs : ai.sys.socket.ret ≠ -1) (hg : ai.sys.getnameinfo.ret = 0)
    (hc : ai.sys.connect.ret ≠ 0)
    (hce : ∀ e, (check_error E ai.sys ai.sys.socket.ret SOCKET_TIMEOUT
      (ai.sys.connect.errno.getD e)).val ≠ 0) :
    ∃ tl tl' e, (∀ x ∈ tl, x.inAttempt = true ∧ x.connectAddr = none)
      ∧ (∀ x ∈ tl', x.inAttempt = true ∧ x.connectAddr = none)
      ∧ attempt E arg port true ai st = Step.next
          ([Event.socket ai.ai_family ai.sys.socket.ret, Event.getnameinfo ai.ai_addr 0,
            Event.stdout ("Found " ++ arg ++ " on address " ++ ai.sys.host ++ ":" ++ port ++ "\n")]
            ++ tl ++ [Event.connect ai.sys.socket.ret ai.ai_addr ai.sys.connect.ret] ++ tl')
          ai.sys.socket.ret e ai.sys.host := by
  rw [attempt_connect E arg port ai st hs hg, if_pos hc, if_pos (hce _)]
  exact ⟨_, _, _,
    fun x hx => ⟨set_timeouts_inAttempt _ _ _ _ x hx, set_timeouts_connectAddr _ _ _ _ x hx⟩,
    fun x hx => ⟨check_error_inAttempt _ _ _ _ _ x hx, check_error_connectAddr _ _ _ _ _ x hx⟩,
    rfl⟩

/-- In connect mode, a candidate that connects (at once, or as `check_error`
finds) is accepted after exactly one `connect` call. -/
theorem attempt_connect_ok (E : Int) (arg port : String) (ai : Cand) (st : Locals)
    (hs : ai.sys.socket.ret ≠ -1) (hg : ai.sys.getnameinfo.ret = 0)
    (hc : ai.sys.connect.ret = 0 ∨ ∀ e, (check_error E ai.sys ai.sys.socket.ret SOCKET_TIMEOUT
      (ai.sys.connect.errno.getD e)).val = 0) :
    ∃ tl tl' e, (∀ x ∈ tl, x.inAttempt = true ∧ x.connectAddr = none)
      ∧ (∀ x ∈ tl', x.inAttempt = true ∧ x.connectAddr = none)
      ∧ attempt E arg port true ai st = Step.found
          ([Event.socket ai.ai_family ai.sys.socket.ret, Event.getnameinfo ai.ai_addr 0,
            Event.stdout ("Found " ++ arg ++ " on address " ++ ai.sys.host ++ ":" ++ port ++ "\n")]
            ++ tl ++ [Event.connect ai.sys.socket.ret ai.ai_addr ai.sys.connect.ret] ++ tl')
          ai.sys.socket.ret e ai.sys.host := by
  rw [attempt_connect E arg port ai st hs hg]
  by_cases h0 : ai.sys.connect.ret = 0
  · rw [if_neg (not_not.mpr h0)]
    refine ⟨(set_timeouts ai.sys ai.sys.socket.ret SOCKET_TIMEOUT
        (ai.sys.getnameinfo.errno.getD (ai.sys.socket.errno.getD st.errno))).2, [],
      ai.sys.connect.errno.getD (set_timeouts ai.sys ai.sys.socket.ret SOCKET_TIMEOUT
        (ai.sys.getnameinfo.errno.getD (ai.sys.socket.errno.getD st.errno))).1,
      fun x hx => ⟨set_timeouts_inAttempt _ _ _ _ x hx, set_timeouts_connectAddr _ _ _ _ x hx⟩,
      fun x hx => by simp at hx, ?_⟩
    rw [List.append_nil]
  · rcases hc with hc | hc
    · exact absurd hc h0
    · rw [if_pos h0, if_neg (not_not.mpr (hc _))]
      exact ⟨_, _, _,
        fun x hx => ⟨set_timeouts_inAttempt _ _ _ _ x hx, set_timeouts_connectAddr _ _ _ _ x hx⟩,
        fun x hx => ⟨check_error_inAttempt _ _ _ _ _ x hx, check_error_connectAddr _ _ _ _ _ x hx⟩,
        rfl⟩

/-! ## Particular runs of the candidate loop -/

/-- Resolve-only mode: the candidates of `pre` fail their reverse lookup, `c`
passes it. -/
theorem loop_resolve_only (E : Int) (arg port : String) (c : Cand) (post : List Cand)
    (hc : c.sys.socket.ret ≠ -1 ∧ c.sys.getnameinfo.ret = 0) :
    ∀ (pre : List Cand),
      (∀ p ∈ pre, p.sys.socket.ret ≠ -1 ∧ p.sys.getnameinfo.ret ≠ 0) →
      ∀ (ai : Cand) (rest : List Cand) (st : Locals), ai :: rest = pre ++ c :: post →
        (main_loop E arg port false ai rest st).status = Status.returned st.rc
        ∧ (main_loop E arg port false ai rest st).trace.filter Event.isFound
            = [Event.stdout ("Found " ++ arg ++ " on address " ++ c.sys.host ++ ":" ++ port ++ "\n")]
        ∧ (main_loop E arg port false ai rest st).trace.filterMap Event.lookupAddr
            = (pre ++ [c]).map Cand.ai_addr
        ∧ (main_loop E arg port false ai rest st).trace.filterMap Event.socketRet
            = (pre ++ [c]).map (fun x => x.sys.socket.ret) := by
  intro pre
  induction pre with
  | nil =>
    intro _ ai rest st h
    simp only [List.nil_append, List.cons.injEq] at h
    obtain ⟨h1, h2⟩ := h
    subst h1 h2
    rw [main_loop_found _ _ _ _ _ _ _ _ _ _ _ (attempt_resolve_only E arg port ai st hc.1 hc.2)]
    refine ⟨rfl, ?_, rfl, rfl⟩
    simp only [List.cons_append, List.nil_append]
    rw [List.filter_cons_of_neg (by simp [Event.isFound]),
      List.filter_cons_of_neg (by simp [Event.isFound]),
      List.filter_cons_of_pos (found_line_isFound _ _ _)]
    rfl
  | cons p pre ih =>
    intro hpre ai rest st h
    simp only [List.cons_append, List.cons.injEq] at h
    obtain ⟨h1, h2⟩ := h
    subst h1
    have hp := hpre ai (List.mem_cons_self _ _)
    obtain ⟨ai', rest', hr⟩ : ∃ ai' rest', rest = ai' :: rest' := by
      cases rest with
      | nil => cases pre <;> simp at h2
      | cons a r => exact ⟨a, r, rfl⟩
    subst hr
    rw [main_loop_next _ _ _ _ _ _ _ _ _ _ _ _ (attempt_lookup_failed E arg port false ai st hp.1 hp.2)]
    obtain ⟨i1, i2, i3, i4⟩ := ih (fun x hx => hpre x (List.mem_cons_of_mem _ hx)) ai' rest'
      ⟨ai.sys.getnameinfo.errno.getD (ai.sys.socket.errno.getD st.errno), st.host,
        st.tries + 1, st.rc⟩ h2
    rw [after_status, after_trace]
    refine ⟨i1, ?_, ?_, ?_⟩
    · rw [List.filter_append, i2]
      simp only [List.cons_append, List.nil_append]
      rw [List.filter_cons_of_neg (by simp [Event.isFound]),
        List.filter_cons_of_neg (by simp [Event.isFound]),
        List.filter_cons_of_neg (by simp [warning_isFound]),
        List.filter_cons_of_neg (by simp [Event.isFound])]
      rfl
    · rw [List.filterMap_append, i3]
      simp only [List.cons_append, List.nil_append, List.map_cons]
      rw [List.filterMap_cons_none (by rfl), List.filterMap_cons_some (by rfl),
        List.filterMap_cons_none (warning_lookupAddr _ _ _), List.filterMap_cons_none (by rfl)]
      rfl
    · rw [List.filterMap_append, i4]
      simp only [List.cons_append, List.nil_append, List.map_cons]
      rw [List.filterMap_cons_some (by rfl), List.filterMap_cons_none (by rfl),
        List.filterMap_cons_none (warning_socketRet _ _ _), List.filterMap_cons_none (by rfl)]
      rfl

/-- The `connect` calls among the events of one connect attempt. -/
theorem attempt_events_connectAddr (fam sd r : Int) (addr : Nat) (line : String)
    (tl tl' : List Event)
    (htl : ∀ x ∈ tl, x.inAttempt = true ∧ x.connectAddr = none)
    (htl' : ∀ x ∈ tl', x.inAttempt = true ∧ x.connectAddr = none) :
    ([Event.socket fam sd, Event.getnameinfo addr 0, Event.stdout line] ++ tl
        ++ [Event.connect sd addr r] ++ tl').filterMap Event.connectAddr = [addr] := by
  simp only [List.filterMap_append, filterMap_none _ tl (fun x hx => (htl x hx).2),
    filterMap_none _ tl' (fun x hx => (htl' x hx).2)]
  rfl

/-- The `socket` calls among the events of one connect attempt. -/
theorem attempt_events_socketRet (fam sd r : Int) (addr : Nat) (line : String)
    (tl tl' : List Event)
    (htl : ∀ x ∈ tl, x.inAttempt = true ∧ x.connectAddr = none)
    (htl' : ∀ x ∈ tl', x.inAttempt = true ∧ x.connectAddr = none) :
    ([Event.socket fam sd, Event.getnameinfo addr 0, Event.stdout line] ++ tl
        ++ [Event.connect sd addr r] ++ tl').filterMap Event.socketRet = [sd] := by
  simp only [List.filterMap_append,
    filterMap_none _ tl (fun x hx => inAttempt_socketRet x (htl x hx).1),
    filterMap_none _ tl' (fun x hx => inAttempt_socketRet x (htl' x hx).1)]
  rfl

/-- No "Failed connecting to" warning among the events of one connect attempt. -/
theorem attempt_events_warnings (fam sd r : Int) (addr : Nat) (line : String)
    (tl tl' : List Event)
    (htl : ∀ x ∈ tl, x.inAttempt = true ∧ x.connectAddr = none)
    (htl' : ∀ x ∈ tl', x.inAttempt = true ∧ x.connectAddr = none) :
    ([Event.socket fam sd, Event.getnameinfo addr 0, Event.stdout line] ++ tl
        ++ [Event.connect sd addr r] ++ tl').countP Event.isFailedConnecting = 0 := by
  simp only [List.countP_append,
    countP_none _ tl (fun x hx => inAttempt_not_failedConnecting x (htl x hx).1),
    countP_none _ tl' (fun x hx => inAttempt_not_failedConnecting x (htl' x hx).1)]
  rfl

/-- Connect mode, every candidate unreachable. -/
theorem loop_all_unreachable (E : Int) (arg port : String) :
    ∀ (rest : List Cand) (ai : Cand) (st : Locals),
      (∀ c ∈ ai :: rest, c.sys.socket.ret ≠ -1 ∧ c.sys.getnameinfo.ret = 0
        ∧ c.sys.connect.ret ≠ 0
        ∧ ∀ e, (check_error E c.sys c.sys.socket.ret SOCKET_TIMEOUT
            (c.sys.connect.errno.getD e)).val ≠ 0) →
      (main_loop E arg port true ai rest st).status = Status.returned 1
      ∧ (main_loop E arg port true ai rest st).trace.filterMap Event.connectAddr
          = (ai :: rest).map Cand.ai_addr := by
  intro rest
  induction rest with
  | nil =>
    intro ai st h
    obtain ⟨hs, hg, hc, hce⟩ := h ai (List.mem_cons_self _ _)
    obtain ⟨tl, tl', e, htl, htl', hat⟩ := attempt_connect_failed E arg port ai st hs hg hc hce
    rw [main_loop_last _ _ _ _ _ _ _ _ _ _ hat]
    refine ⟨rfl, ?_⟩
    show List.filterMap Event.connectAddr (_ ++ _) = _
    rw [List.filterMap_append, attempt_events_connectAddr _ _ _ _ _ _ _ htl htl']
    rfl
  | cons ai' rest ih =>
    intro ai st h
    obtain ⟨hs, hg, hc, hce⟩ := h ai (List.mem_cons_self _ _)
    obtain ⟨tl, tl', e, htl, htl', hat⟩ := attempt_connect_failed E arg port ai st hs hg hc hce
    rw [main_loop_next _ _ _ _ _ _ _ _ _ _ _ _ hat]
    obtain ⟨i1, i2⟩ := ih ai' ⟨e, ai.sys.host, st.tries + 1, st.rc⟩
      (fun x hx => h x (List.mem_cons_of_mem _ hx))
    rw [after_status, after_trace]
    refine ⟨i1, ?_⟩
    rw [List.filterMap_append, i2, List.filterMap_append,
      attempt_events_connectAddr _ _ _ _ _ _ _ htl htl',
      List.filterMap_cons_none (warning_connectAddr _ _ _), List.filterMap_cons_none (by rfl)]
    rfl

/-- Connect mode, the first candidate unreachable and the second one connecting. -/
theorem loop_fail_then_succeed (E : Int) (arg port : String) (c1 c2 : Cand) (rest : List Cand)
    (st : Locals)
    (h1 : c1.sys.socket.ret ≠ -1 ∧ c1.sys.getnameinfo.ret = 0 ∧ c1.sys.connect.ret ≠ 0
      ∧ ∀ e, (check_error E c1.sys c1.sys.socket.ret SOCKET_TIMEOUT
          (c1.sys.connect.errno.getD e)).val ≠ 0)
    (h2 : c2.sys.socket.ret ≠ -1 ∧ c2.sys.getnameinfo.ret = 0
      ∧ (c2.sys.connect.ret = 0 ∨ ∀ e, (check_error E c2.sys c2.sys.socket.ret SOCKET_TIMEOUT
          (c2.sys.connect.errno.getD e)).val = 0)) :
    (main_loop E arg port true c1 (c2 :: rest) st).status = Status.returned st.rc
    ∧ (main_loop E arg port true c1 (c2 :: rest) st).trace.countP Event.isFailedConnecting = 1
    ∧ Event.stdout ("Found " ++ arg ++ " on address " ++ c2.sys.host ++ ":" ++ port ++ "\n")
        ∈ (main_loop E arg port true c1 (c2 :: rest) st).trace
    ∧ (main_loop E arg port true c1 (c2 :: rest) st).trace.filterMap Event.connectAddr
        = [c1.ai_addr, c2.ai_addr]
    ∧ (main_loop E arg port true c1 (c2 :: rest) st).trace.filterMap Event.socketRet
        = [c1.sys.socket.ret, c2.sys.socket.ret] := by
  obtain ⟨hs, hg, hc, hce⟩ := h1
  obtain ⟨hs2, hg2, hc2⟩ := h2
  obtain ⟨tl, tl', e, htl, htl', hat⟩ := attempt_connect_failed E arg port c1 st hs hg hc hce
  rw [main_loop_next _ _ _ _ _ _ _ _ _ _ _ _ hat]
  obtain ⟨ul, ul', e', hul, hul', hat2⟩ := attempt_connect_ok E arg port c2
    ⟨e, c1.sys.host, st.tries + 1, st.rc⟩ hs2 hg2 hc2
  rw [main_loop_found _ _ _ _ _ _ _ _ _ _ _ hat2, after_status, after_trace]
  refine ⟨rfl, ?_, ?_, ?_, ?_⟩
  · simp only [List.countP_append, attempt_events_warnings _ _ _ _ _ _ _ htl htl',
      attempt_events_warnings _ _ _ _ _ _ _ hul hul']
    rw [List.countP_cons_of_pos _ _ (failed_connecting_warning _ _ _)]
    rfl
  · simp
  · simp only [List.filterMap_append, attempt_events_connectAddr _ _ _ _ _ _ _ htl htl',
      attempt_events_connectAddr _ _ _ _ _ _ _ hul hul']
    rw [List.filterMap_cons_none (warning_connectAddr _ _ _)]
    rfl
  · simp only [List.filterMap_append, attempt_events_socketRet _ _ _ _ _ _ _ htl htl',
      attempt_events_socketRet _ _ _ _ _ _ _ hul hul']
    rw [List.filterMap_cons_none (warning_socketRet _ _ _)]
    rfl

/-! ## Option handling: the help flag -/

theorem main_options_help (n : Nat) :
    ∀ (gs : List GetoptRet) (rest : List Char) (tc : Bool),
      (∀ g ∈ gs, (g.diag = none ∧ g.c ∈ "ch?".data) ∨ g.c = '?') →
      gs.map GetoptRet.c = List.replicate n 'c' ++ 'h' :: rest →
      main_options gs tc = ([Event.stdout usage_text], Sum.inl (Status.returned 0)) := by
  induction n with
  | zero =>
    intro gs rest tc hgs h
    cases gs with
    | nil => simp at h
    | cons g gs =>
      simp only [List.map_cons, List.replicate_zero, List.nil_append, List.cons.injEq] at h
      have hdiag : g.diag = none := by
        rcases hgs g (List.mem_cons_self _ _) with h1 | h1
        · exact h1.1
        · rw [h.1] at h1
          exact absurd h1 (by decide)
      simp only [main_options, h.1, hdiag]
      rfl
  | succ n ih =>
    intro gs rest tc hgs h
    cases gs with
    | nil => simp [List.replicate_succ] at h
    | cons g gs =>
      simp only [List.map_cons, List.replicate_succ, List.cons_append, List.cons.injEq] at h
      have hdiag : g.diag = none := by
        rcases hgs g (List.mem_cons_self _ _) with h1 | h1
        · exact h1.1
        · rw [h.1] at h1
          exact absurd h1 (by decide)
      simp only [main_options, h.1, hdiag, if_true, List.nil_append]
      rw [ih gs rest true (fun x hx => hgs x (List.mem_cons_of_mem _ hx)) h.2]

/-! ## The claims -/

/-- C4: when `getaddrinfo` returns a non-zero code or an empty list, `main`
writes the message "Failed resolving hostname HOST: REASON", which contains
the host argument, and returns 1; the trace has `res_init`, the `getaddrinfo`
call and that message, so no socket is created and no connection attempted. -/
theorem resolution_failure_reported (env : Env) (argv : List String) (tc : Bool)
    (arg port : String) (hgo : (main_args argv).2 = Parsed.go tc arg port)
    (hfail : (env.getaddrinfo arg port).1 ≠ 0 ∨ (env.getaddrinfo arg port).2.1 = []) :
    main env argv =
      ⟨[Event.res_init, Event.getaddrinfo arg port (env.getaddrinfo arg port).1,
        Event.warnx ("Failed resolving hostname " ++ arg ++ ": "
          ++ env.gai_strerror (env.getaddrinfo arg port).1)], Status.returned 1⟩ := by
  rw [main_eq_probe env argv tc arg port hgo]
  exact main_probe_failed env tc arg port hfail

/-- Witness of C4: the resolver answers `EAI_NONAME` (-2) for `ns nosuch.invalid`. -/
theorem resolution_failure_reported_witness :
    main (ex_env (-2) []) ["ns", "nosuch.invalid"] =
      ⟨[Event.res_init, Event.getaddrinfo "nosuch.invalid" "80" (-2),
        Event.warnx "Failed resolving hostname nosuch.invalid: Name or service not known"],
        Status.returned 1⟩ :=
  resolution_failure_reported (ex_env (-2) []) ["ns", "nosuch.invalid"] false
    "nosuch.invalid" "80" (by decide) (by decide)

/-- C5: the code at `ns -x host`: `getopt` reports the unknown `-x` and returns
`?`, which `main` handles with the help case, so the usage text is printed and
`main` returns 0, not 1.  No command line reaches the `default` case, since
`getopt` only ever returns `c`, `h` or `?` for the option string `ch?`. -/
theorem unknown_flag_returns_zero :
    (∀ env : Env, main env ["ns", "-x", "host"]
        = ⟨[Event.getopt_diag 'x', Event.stdout usage_text], Status.returned 0⟩)
    ∧ (∀ (args : List String) (optind : Nat), ∀ g ∈ (getopt_calls "ch?".data args optind).1,
        g.c = 'c' ∨ g.c = 'h' ∨ g.c = '?') := by
  refine ⟨fun env => rfl, ?_⟩
  intro args optind g hg
  rcases getopt_calls_spec _ args optind g hg with h | h
  · have := h.2
    simp at this
    exact this
  · exact Or.inr (Or.inr h)

/-- C6: when `getopt` returns `h` at one of the calls `main` makes (so after
returning `c` any number of times), the trace of `main` is the usage text alone
and `main` returns 0: nothing is resolved, no socket created, no connect made,
whatever else is on the command line. -/
theorem help_flag_usage (env : Env) (argv : List String) (n : Nat) (rest : List Char)
    (h : (getopt_calls "ch?".data (argv.drop 1) 1).1.map GetoptRet.c
      = List.replicate n 'c' ++ 'h' :: rest) :
    (main env argv).trace = [Event.stdout usage_text]
      ∧ (main env argv).status = Status.returned 0 := by
  have hopt := main_options_help n (getopt_calls "ch?".data (argv.drop 1) 1).1 rest false
    (getopt_calls_spec _ _ 1) h
  have hargs : main_args argv = ([Event.stdout usage_text], Parsed.done (Status.returned 0)) := by
    unfold main_args
    rw [hopt]
  unfold main
  rw [hargs]
  exact ⟨rfl, rfl⟩

/-- Witness of C6: `ns -c -h`, with `-c` before the help flag and no host. -/
theorem help_flag_usage_witness :
    (main (ex_env 0 []) ["ns", "-c", "-h"]).trace = [Event.stdout usage_text]
      ∧ (main (ex_env 0 []) ["ns", "-c", "-h"]).status = Status.returned 0 :=
  help_flag_usage (ex_env 0 []) ["ns", "-c", "-h"] 1 [] (by decide)

/-- C7: in every run of `main`, in either mode, a `socket` call that returns -1
(for the first candidate or a later one) is followed by the `err` message and
by nothing else, and the process exits with status 1. -/
theorem socket_failure_is_fatal (env : Env) (argv : List String) (pre post : List Event)
    (fam : Int) (h : (main env argv).trace = pre ++ Event.socket fam (-1) :: post) :
    (main env argv).status = Status.exited 1
      ∧ ∃ e, post = [Event.err 1 "Error creating client socket" e] :=
  main_atEach Event.isSocketFailure
    (fun s post => s = Status.exited 1
      ∧ ∃ e, post = [Event.err 1 "Error creating client socket" e])
    inArgs_not_socketFailure rfl (fun _ _ _ => rfl) (fun _ => rfl)
    (fun arg t s hrun => loopRun_socket_failure arg 0 t s hrun)
    env argv pre (Event.socket fam (-1)) post h rfl

/-- Witness of C7: connect mode, the first address refuses the connection and
the socket for the second one cannot be created. -/
theorem socket_failure_is_fatal_witness :
    (main (ex_env 0 [⟨2, 1, 16, ex_refused 3 "10.0.0.1"⟩, ⟨10, 2, 28, ex_nosocket⟩])
        ["ns", "-c", "host"]).status = Status.exited 1
      ∧ ∃ e, [Event.err 1 "Error creating client socket" 24]
          = [Event.err 1 "Error creating client socket" e] :=
  socket_failure_is_fatal
    (ex_env 0 [⟨2, 1, 16, ex_refused 3 "10.0.0.1"⟩, ⟨10, 2, 28, ex_nosocket⟩])
    ["ns", "-c", "host"]
    [Event.res_init, Event.getaddrinfo "host" "80" 0, Event.socket 2 3, Event.getnameinfo 1 0,
      Event.stdout "Found host on address 10.0.0.1:80\n",
      Event.setsockopt 3 SockOpt.SO_RCVTIMEO 10 0 0, Event.setsockopt 3 SockOpt.SO_SNDTIMEO 10 0 0,
      Event.connect 3 1 (-1), Event.warn "Failed connecting to 10.0.0.1" 111, Event.close 3]
    [Event.err 1 "Error creating client socket" 24] 10 (by decide)

/-- C10: in every run in which the candidate loop is entered and `main` reaches
`return rc`, the trace keeps the socket discipline of `Res.step` at every
event (a socket is created only while none is open, a `close` is always of the
descriptor that is open, the list is freed once, with no socket open and no
socket created afterwards), and at the end no socket is open and the list has
been freed. -/
theorem socket_discipline (env : Env) (argv : List String) (tc : Bool) (arg port : String)
    (rc : Int) (hgo : (main_args argv).2 = Parsed.go tc arg port)
    (h0 : (env.getaddrinfo arg port).1 = 0) (hl : (env.getaddrinfo arg port).2.1 ≠ [])
    (hret : (main env argv).status = Status.returned rc) :
    Res.run ⟨none, false⟩ (main env argv).trace = some ⟨none, true⟩ := by
  obtain ⟨ai, rest, hl⟩ := List.exists_cons_of_ne_nil hl
  rw [main_eq_probe env argv tc arg port hgo, main_probe_loop env tc arg port ai rest h0 hl]
    at hret ⊢
  rw [after_status] at hret
  rw [after_trace]
  show Res.run ⟨none, false⟩ (main_loop env.EINPROGRESS arg port tc ai rest
    ⟨(env.getaddrinfo arg port).2.2, env.host0, 0, 0⟩).trace = some ⟨none, true⟩
  exact loopRun_resources arg 0 _ _
    (main_loop_run env.EINPROGRESS arg port tc rest ai
      ⟨(env.getaddrinfo arg port).2.2, env.host0, 0, 0⟩) rc hret

/-- Witness of C10: connect mode over three addresses; the reverse lookup of the
first fails, the second refuses the connection, the third connects. -/
theorem socket_discipline_witness :
    Res.run ⟨none, false⟩
      (main (ex_env 0 [⟨2, 1, 16, ex_nolookup 3⟩, ⟨2, 2, 16, ex_refused 4 "10.0.0.2"⟩,
        ⟨10, 3, 28, ex_ok 5 "::1"⟩]) ["ns", "-c", "host"]).trace = some ⟨none, true⟩ :=
  socket_discipline
    (ex_env 0 [⟨2, 1, 16, ex_nolookup 3⟩, ⟨2, 2, 16, ex_refused 4 "10.0.0.2"⟩,
      ⟨10, 3, 28, ex_ok 5 "::1"⟩]) ["ns", "-c", "host"] true "host" "80" 0
    (by decide) (by decide) (by decide) (by decide)

/-- C1 as stated fails: resolve-only mode, resolution succeeds with one address
and its socket is created, but its reverse lookup fails; `main` returns 1 and
prints no "Found" line. -/
theorem resolve_only_lookup_fails_returns_one :
    main (ex_env 0 [⟨2, 1, 16, ex_nolookup 3⟩]) ["ns", "host"] =
      ⟨[Event.res_init, Event.getaddrinfo "host" "80" 0, Event.socket 2 3,
        Event.getnameinfo 1 (-6), Event.warn "Failed connecting to host" 0, Event.close 3,
        Event.freeaddrinfo], Status.returned 1⟩ := by
  decide

/-- C1, amended: resolve-only mode, resolution succeeds, and some candidate `c`
passes its reverse lookup while all candidates before it (`pre`) fail theirs,
the sockets of `pre` and `c` being created.  Then `main` returns 0, the only
"Found" line of the run is the one for `c`, and the reverse lookups and the
sockets of the run are those of `pre` and `c`, in list order: no candidate after
`c` is examined. -/
theorem resolve_only_first_lookup (env : Env) (argv : List String) (arg port : String)
    (pre : List Cand) (c : Cand) (post : List Cand)
    (hgo : (main_args argv).2 = Parsed.go false arg port)
    (h0 : (env.getaddrinfo arg port).1 = 0)
    (hl : (env.getaddrinfo arg port).2.1 = pre ++ c :: post)
    (hpre : ∀ p ∈ pre, p.sys.socket.ret ≠ -1 ∧ p.sys.getnameinfo.ret ≠ 0)
    (hc : c.sys.socket.ret ≠ -1 ∧ c.sys.getnameinfo.ret = 0) :
    (main env argv).status = Status.returned 0
    ∧ (main env argv).trace.filter Event.isFound
        = [Event.stdout ("Found " ++ arg ++ " on address " ++ c.sys.host ++ ":" ++ port ++ "\n")]
    ∧ (main env argv).trace.filterMap Event.lookupAddr = (pre ++ [c]).map Cand.ai_addr
    ∧ (main env argv).trace.filterMap Event.socketRet
        = (pre ++ [c]).map (fun x => x.sys.socket.ret) := by
  obtain ⟨ai, rest, hcons⟩ : ∃ ai rest, ai :: rest = pre ++ c :: post := by
    cases pre with
    | nil => exact ⟨c, post, rfl⟩
    | cons p pre => exact ⟨p, pre ++ c :: post, rfl⟩
  rw [main_eq_probe env argv false arg port hgo,
    main_probe_loop env false arg port ai rest h0 (by rw [hl, hcons])]
  obtain ⟨i1, i2, i3, i4⟩ := loop_resolve_only env.EINPROGRESS arg port c post hc pre hpre ai rest
    ⟨(env.getaddrinfo arg port).2.2, env.host0, 0, 0⟩ hcons
  exact ⟨i1, i2, i3, i4⟩

/-- Witness of C1, amended: `ns host 8080` over three addresses, the reverse
lookup of the first failing. -/
theorem resolve_only_first_lookup_witness :
    (main (ex_env 0 [⟨2, 1, 16, ex_nolookup 3⟩, ⟨2, 2, 16, ex_ok 4 "10.0.0.2"⟩,
        ⟨10, 3, 28, ex_ok 5 "::1"⟩]) ["ns", "host", "8080"]).status = Status.returned 0
    ∧ (main (ex_env 0 [⟨2, 1, 16, ex_nolookup 3⟩, ⟨2, 2, 16, ex_ok 4 "10.0.0.2"⟩,
        ⟨10, 3, 28, ex_ok 5 "::1"⟩]) ["ns", "host", "8080"]).trace.filter Event.isFound
        = [Event.stdout ("Found " ++ "host" ++ " on address " ++ "10.0.0.2" ++ ":" ++ "8080" ++ "\n")]
    ∧ (main (ex_env 0 [⟨2, 1, 16, ex_nolookup 3⟩, ⟨2, 2, 16, ex_ok 4 "10.0.0.2"⟩,
        ⟨10, 3, 28, ex_ok 5 "::1"⟩]) ["ns", "host", "8080"]).trace.filterMap Event.lookupAddr
        = [1, 2]
    ∧ (main (ex_env 0 [⟨2, 1, 16, ex_nolookup 3⟩, ⟨2, 2, 16, ex_ok 4 "10.0.0.2"⟩,
        ⟨10, 3, 28, ex_ok 5 "::1"⟩]) ["ns", "host", "8080"]).trace.filterMap Event.socketRet
        = [3, 4] :=
  resolve_only_first_lookup
    (ex_env 0 [⟨2, 1, 16, ex_nolookup 3⟩, ⟨2, 2, 16, ex_ok 4 "10.0.0.2"⟩,
      ⟨10, 3, 28, ex_ok 5 "::1"⟩]) ["ns", "host", "8080"] "host" "8080"
    [⟨2, 1, 16, ex_nolookup 3⟩] ⟨2, 2, 16, ex_ok 4 "10.0.0.2"⟩ [⟨10, 3, 28, ex_ok 5 "::1"⟩]
    (by decide) (by decide) (by decide) (by decide) (by decide)

/-- C2: connect mode, resolution succeeds with at least one address and the
connection attempt on every address fails (its socket is created, its reverse
lookup succeeds, `connect` returns non-zero and `check_error` returns non-zero
for the `errno` that `connect` leaves).  Then the `connect` calls of the run are
one per candidate, in the order of the resolved list, and `main` returns 1. -/
theorem connect_all_unreachable (env : Env) (argv : List String) (arg port : String)
    (hgo : (main_args argv).2 = Parsed.go true arg port)
    (h0 : (env.getaddrinfo arg port).1 = 0)
    (hne : (env.getaddrinfo arg port).2.1 ≠ [])
    (hall : ∀ c ∈ (env.getaddrinfo arg port).2.1,
      c.sys.socket.ret ≠ -1 ∧ c.sys.getnameinfo.ret = 0 ∧ c.sys.connect.ret ≠ 0
      ∧ ∀ e, (check_error env.EINPROGRESS c.sys c.sys.socket.ret SOCKET_TIMEOUT
          (c.sys.connect.errno.getD e)).val ≠ 0) :
    (main env argv).status = Status.returned 1
    ∧ (main env argv).trace.filterMap Event.connectAddr
        = (env.getaddrinfo arg port).2.1.map Cand.ai_addr := by
  obtain ⟨ai, rest, hl⟩ := List.exists_cons_of_ne_nil hne
  rw [hl] at hall
  rw [main_eq_probe env argv true arg port hgo,
    main_probe_loop env true arg port ai rest h0 hl, hl]
  exact loop_all_unreachable env.EINPROGRESS arg port rest ai
    ⟨(env.getaddrinfo arg port).2.2, env.host0, 0, 0⟩ hall

/-- Witness of C2: `ns -c host` over two addresses that refuse the connection. -/
theorem connect_all_unreachable_witness :
    (main (ex_env 0 [⟨2, 1, 16, ex_refused 3 "10.0.0.1"⟩, ⟨2, 2, 16, ex_refused 3 "10.0.0.2"⟩])
        ["ns", "-c", "host"]).status = Status.returned 1
    ∧ (main (ex_env 0 [⟨2, 1, 16, ex_refused 3 "10.0.0.1"⟩, ⟨2, 2, 16, ex_refused 3 "10.0.0.2"⟩])
        ["ns", "-c", "host"]).trace.filterMap Event.connectAddr = [1, 2] :=
  connect_all_unreachable
    (ex_env 0 [⟨2, 1, 16, ex_refused 3 "10.0.0.1"⟩, ⟨2, 2, 16, ex_refused 3 "10.0.0.2"⟩])
    ["ns", "-c", "host"] "host" "80" (by decide) (by decide) (by decide)
    (by
      intro c hc
      simp only [ex_env, List.mem_cons, List.mem_singleton, List.not_mem_nil, or_false] at hc
      rcases hc with h | h <;> subst h
      · exact ⟨by decide, by decide, by decide, fun _ =>
          (by decide : (check_error 115 (ex_refused 3 "10.0.0.1") 3 SOCKET_TIMEOUT 111).val ≠ 0)⟩
      · exact ⟨by decide, by decide, by decide, fun _ =>
          (by decide : (check_error 115 (ex_refused 3 "10.0.0.2") 3 SOCKET_TIMEOUT 111).val ≠ 0)⟩)

/-- C3: connect mode, the first address fails to connect and the second one
connects (`connect` returns 0, or `check_error` returns 0 for the `errno` that
`connect` leaves).  Then `main` returns 0, the run has exactly one "Failed
connecting to" warning, it has the "Found" line of the second address, and its
`connect` and `socket` calls are those of the first two candidates: nothing is
attempted on a third or later one. -/
theorem connect_fail_then_succeed (env : Env) (argv : List String) (arg port : String)
    (c1 c2 : Cand) (rest : List Cand)
    (hgo : (main_args argv).2 = Parsed.go true arg port)
    (h0 : (env.getaddrinfo arg port).1 = 0)
    (hl : (env.getaddrinfo arg port).2.1 = c1 :: c2 :: rest)
    (h1 : c1.sys.socket.ret ≠ -1 ∧ c1.sys.getnameinfo.ret = 0 ∧ c1.sys.connect.ret ≠ 0
      ∧ ∀ e, (check_error env.EINPROGRESS c1.sys c1.sys.socket.ret SOCKET_TIMEOUT
          (c1.sys.connect.errno.getD e)).val ≠ 0)
    (h2 : c2.sys.socket.ret ≠ -1 ∧ c2.sys.getnameinfo.ret = 0
      ∧ (c2.sys.connect.ret = 0
        ∨ ∀ e, (check_error env.EINPROGRESS c2.sys c2.sys.socket.ret SOCKET_TIMEOUT
          (c2.sys.connect.errno.getD e)).val = 0)) :
    (main env argv).status = Status.returned 0
    ∧ (main env argv).trace.countP Event.isFailedConnecting = 1
    ∧ Event.stdout ("Found " ++ arg ++ " on address " ++ c2.sys.host ++ ":" ++ port ++ "\n")
        ∈ (main env argv).trace
    ∧ (main env argv).trace.filterMap Event.connectAddr = [c1.ai_addr, c2.ai_addr]
    ∧ (main env argv).trace.filterMap Event.socketRet
        = [c1.sys.socket.ret, c2.sys.socket.ret] := by
  rw [main_eq_probe env argv true arg port hgo,
    main_probe_loop env true arg port c1 (c2 :: rest) h0 hl]
  obtain ⟨i1, i2, i3, i4, i5⟩ := loop_fail_then_succeed env.EINPROGRESS arg port c1 c2 rest
    ⟨(env.getaddrinfo arg port).2.2, env.host0, 0, 0⟩ h1 h2
  exact ⟨i1, i2, List.mem_cons_of_mem _ (List.mem_cons_of_mem _ i3), i4, i5⟩

/-- Witness of C3: `ns -c host` over three addresses; the first refuses the
connection, the second reports `EINPROGRESS` (115) and completes within the
timeout. -/
theorem connect_fail_then_succeed_witness :
    (main (ex_env 0 [⟨2, 1, 16, ex_refused 3 "10.0.0.1"⟩, ⟨2, 2, 16, ex_inprogress 4 "10.0.0.2"⟩,
        ⟨10, 3, 28, ex_ok 5 "::1"⟩]) ["ns", "-c", "host"]).status = Status.returned 0
    ∧ (main (ex_env 0 [⟨2, 1, 16, ex_refused 3 "10.0.0.1"⟩, ⟨2, 2, 16, ex_inprogress 4 "10.0.0.2"⟩,
        ⟨10, 3, 28, ex_ok 5 "::1"⟩]) ["ns", "-c", "host"]).trace.countP Event.isFailedConnecting = 1
    ∧ Event.stdout ("Found " ++ "host" ++ " on address " ++ "10.0.0.2" ++ ":" ++ "80" ++ "\n")
        ∈ (main (ex_env 0 [⟨2, 1, 16, ex_refused 3 "10.0.0.1"⟩, ⟨2, 2, 16, ex_inprogress 4 "10.0.0.2"⟩,
        ⟨10, 3, 28, ex_ok 5 "::1"⟩]) ["ns", "-c", "host"]).trace
    ∧ (main (ex_env 0 [⟨2, 1, 16, ex_refused 3 "10.0.0.1"⟩, ⟨2, 2, 16, ex_inprogress 4 "10.0.0.2"⟩,
        ⟨10, 3, 28, ex_ok 5 "::1"⟩]) ["ns", "-c", "host"]).trace.filterMap Event.connectAddr = [1, 2]
    ∧ (main (ex_env 0 [⟨2, 1, 16, ex_refused 3 "10.0.0.1"⟩, ⟨2, 2, 16, ex_inprogress 4 "10.0.0.2"⟩,
        ⟨10, 3, 28, ex_ok 5 "::1"⟩]) ["ns", "-c", "host"]).trace.filterMap Event.socketRet = [3, 4] :=
  connect_fail_then_succeed
    (ex_env 0 [⟨2, 1, 16, ex_refused 3 "10.0.0.1"⟩, ⟨2, 2, 16, ex_inprogress 4 "10.0.0.2"⟩,
        ⟨10, 3, 28, ex_ok 5 "::1"⟩]) ["ns", "-c", "host"] "host" "80"
    ⟨2, 1, 16, ex_refused 3 "10.0.0.1"⟩ ⟨2, 2, 16, ex_inprogress 4 "10.0.0.2"⟩
    [⟨10, 3, 28, ex_ok 5 "::1"⟩]
    (by decide) (by decide) (by decide)
    ⟨by decide, by decide, by decide, fun _ =>
      (by decide : (check_error 115 (ex_refused 3 "10.0.0.1") 3 SOCKET_TIMEOUT 111).val ≠ 0)⟩
    ⟨by decide, by decide, Or.inr (fun _ =>
      (by decide : (check_error 115 (ex_inprogress 4 "10.0.0.2") 4 SOCKET_TIMEOUT 115).val = 0))⟩

/-- C8 as stated fails: resolve-only mode over two addresses, the reverse lookup
of the first failing.  Between the failed `getnameinfo` and the `socket` call for
the second address the run writes the warning "Failed connecting to " followed
by the contents of the `host` buffer (here still empty). -/
theorem lookup_failure_writes_warning :
    main (ex_env 0 [⟨2, 1, 16, ex_nolookup 3⟩, ⟨2, 2, 16, ex_ok 4 "10.0.0.2"⟩]) ["ns", "host"] =
      ⟨[Event.res_init, Event.getaddrinfo "host" "80" 0, Event.socket 2 3,
        Event.getnameinfo 1 (-6), Event.warn "Failed connecting to " 0, Event.close 3,
        Event.socket 2 4, Event.getnameinfo 2 0,
        Event.stdout "Found host on address 10.0.0.2:80\n", Event.close 4, Event.freeaddrinfo],
        Status.returned 0⟩ := by
  decide

/-- C8, amended: a failed reverse lookup is not fatal, and it is reported.  In
every run of `main`, a `getnameinfo` call that returns non-zero is followed at
once by one "Failed connecting to" warning and the `close` of the socket (so no
"Found" line, no `connect` for that candidate), and then either by the `socket`
call for the next candidate, or, when none is left, by `freeaddrinfo` and
`return 1`.  And the loop started on a candidate `c` whose socket is created and
whose reverse lookup fails returns 1 when `c` is the last candidate, and is
otherwise, after those four events, the loop on the candidates that remain. -/
theorem lookup_failure_skips (env : Env) (argv : List String) (E : Int) (arg port : String)
    (tc : Bool) (c : Cand) (rest : List Cand) (st : Locals)
    (hs : c.sys.socket.ret ≠ -1) (hg : c.sys.getnameinfo.ret ≠ 0) :
    (∀ pre post addr ret,
      (main env argv).trace = pre ++ Event.getnameinfo addr ret :: post → ret ≠ 0 →
      ∃ w sd, w.isFailedConnecting = true
        ∧ ((post = [w, Event.close sd, Event.freeaddrinfo]
            ∧ (main env argv).status = Status.returned 1)
          ∨ ∃ fam sd' post', post = w :: Event.close sd :: Event.socket fam sd' :: post'))
    ∧ (rest = [] →
        main_loop E arg port tc c rest st =
          ⟨[Event.socket c.ai_family c.sys.socket.ret,
            Event.getnameinfo c.ai_addr c.sys.getnameinfo.ret,
            Event.warn ("Failed connecting to " ++ arg)
              (c.sys.getnameinfo.errno.getD (c.sys.socket.errno.getD st.errno)),
            Event.close c.sys.socket.ret, Event.freeaddrinfo], Status.returned 1⟩)
    ∧ (∀ d rest', rest = d :: rest' →
        ∃ w, w.isFailedConnecting = true
          ∧ main_loop E arg port tc c rest st =
            (main_loop E arg port tc d rest'
              ⟨c.sys.getnameinfo.errno.getD (c.sys.socket.errno.getD st.errno), st.host,
                st.tries + 1, st.rc⟩).after
              [Event.socket c.ai_family c.sys.socket.ret,
                Event.getnameinfo c.ai_addr c.sys.getnameinfo.ret, w,
                Event.close c.sys.socket.ret]) := by
  refine ⟨?_, ?_, ?_⟩
  · intro pre post addr ret h hr
    exact main_atEach Event.isLookupFailure
      (fun s post => ∃ w sd, w.isFailedConnecting = true
        ∧ ((post = [w, Event.close sd, Event.freeaddrinfo] ∧ s = Status.returned 1)
          ∨ ∃ fam sd' post', post = w :: Event.close sd :: Event.socket fam sd' :: post'))
      inArgs_not_lookupFailure rfl (fun _ _ _ => rfl) (fun _ => rfl)
      (fun arg t s hrun => loopRun_lookup_failure arg 0 t s hrun)
      env argv pre (Event.getnameinfo addr ret) post h (by simp [Event.isLookupFailure, hr])
  · intro hrest
    subst hrest
    rw [main_loop_last _ _ _ _ _ _ _ _ _ _ (attempt_lookup_failed E arg port tc c st hs hg)]
    rfl
  · intro d rest' hrest
    subst hrest
    rw [main_loop_next _ _ _ _ _ _ _ _ _ _ _ _ (attempt_lookup_failed E arg port tc c st hs hg)]
    exact ⟨_, failed_connecting_warning E _ st.host, rfl⟩

/-- Witness of C8, amended: the loop of `ns -c host` on an address whose reverse
lookup fails, with one address after it. -/
theorem lookup_failure_skips_witness :
    ∃ w, w.isFailedConnecting = true
      ∧ main_loop 115 "host" "80" true ⟨2, 1, 16, ex_nolookup 3⟩ [⟨2, 2, 16, ex_ok 4 "10.0.0.2"⟩]
          ⟨0, "", 0, 0⟩ =
        (main_loop 115 "host" "80" true ⟨2, 2, 16, ex_ok 4 "10.0.0.2"⟩ [] ⟨0, "", 1, 0⟩).after
          [Event.socket 2 3, Event.getnameinfo 1 (-6), w, Event.close 3] :=
  (lookup_failure_skips (ex_env 0 [⟨2, 1, 16, ex_nolookup 3⟩, ⟨2, 2, 16, ex_ok 4 "10.0.0.2"⟩])
    ["ns", "-c", "host"] 115 "host" "80" true ⟨2, 1, 16, ex_nolookup 3⟩
    [⟨2, 2, 16, ex_ok 4 "10.0.0.2"⟩] ⟨0, "", 0, 0⟩ (by decide) (by decide)).2.2
    ⟨2, 2, 16, ex_ok 4 "10.0.0.2"⟩ [] rfl

/-- C9: `check_error` returns 0 exactly when `errno` is `EINPROGRESS`, `poll`
returns a positive value and `getsockopt` succeeds with a pending error of 0
(which is when `soerror` returns 0); otherwise it returns 1, and when `errno`
is not `EINPROGRESS` it does so with no event at all (no `poll`, no
`getsockopt`).  In the loop body in connect mode, for a candidate whose socket
is created and whose reverse lookup succeeds: when `connect` returns 0 the
candidate is accepted and the `connect` call is the last event of the attempt
(nothing of `check_error` follows); when `connect` returns non-zero the
candidate is accepted or handed to `next` as `check_error` returns 0 or not. -/
theorem connect_decision (E : Int) (r : Replies) (sd msec errno : Int) (arg port : String)
    (ai : Cand) (st : Locals)
    (hs : ai.sys.socket.ret ≠ -1) (hg : ai.sys.getnameinfo.ret = 0) :
    ((check_error E r sd msec errno).val = 0
        ↔ (errno = E ∧ r.poll.ret > 0 ∧ r.getsockopt.ret = 0 ∧ r.so_error = 0))
    ∧ ((check_error E r sd msec errno).val ≠ 0 → (check_error E r sd msec errno).val = 1)
    ∧ (errno ≠ E → (check_error E r sd msec errno).trace = [])
    ∧ ((soerror r sd errno).val = 0 ↔ (r.getsockopt.ret = 0 ∧ r.so_error = 0))
    ∧ (ai.sys.connect.ret = 0 →
        attempt E arg port true ai st = Step.found
          ([Event.socket ai.ai_family ai.sys.socket.ret, Event.getnameinfo ai.ai_addr 0,
            Event.stdout ("Found " ++ arg ++ " on address " ++ ai.sys.host ++ ":" ++ port ++ "\n")]
            ++ (set_timeouts ai.sys ai.sys.socket.ret SOCKET_TIMEOUT
              (ai.sys.getnameinfo.errno.getD (ai.sys.socket.errno.getD st.errno))).2
            ++ [Event.connect ai.sys.socket.ret ai.ai_addr 0])
          ai.sys.socket.ret
          (ai.sys.connect.errno.getD (set_timeouts ai.sys ai.sys.socket.ret SOCKET_TIMEOUT
            (ai.sys.getnameinfo.errno.getD (ai.sys.socket.errno.getD st.errno))).1)
          ai.sys.host)
    ∧ (ai.sys.connect.ret ≠ 0 →
        ((check_error E ai.sys ai.sys.socket.ret SOCKET_TIMEOUT
            (ai.sys.connect.errno.getD (set_timeouts ai.sys ai.sys.socket.ret SOCKET_TIMEOUT
              (ai.sys.getnameinfo.errno.getD (ai.sys.socket.errno.getD st.errno))).1)).val = 0
          → ∃ evs e, attempt E arg port true ai st
              = Step.found evs ai.sys.socket.ret e ai.sys.host)
        ∧ ((check_error E ai.sys ai.sys.socket.ret SOCKET_TIMEOUT
            (ai.sys.connect.errno.getD (set_timeouts ai.sys ai.sys.socket.ret SOCKET_TIMEOUT
              (ai.sys.getnameinfo.errno.getD (ai.sys.socket.errno.getD st.errno))).1)).val ≠ 0
          → ∃ evs e, attempt E arg port true ai st
              = Step.next evs ai.sys.socket.ret e ai.sys.host)) := by
  refine ⟨check_error_val E r sd msec errno, ?_, ?_, soerror_val r sd errno, ?_, ?_⟩
  · intro hne
    rcases check_error_zero_or_one E r sd msec errno with h | h
    · exact absurd h hne
    · exact h
  · intro hne
    rw [check_error_trace, if_neg (fun h => hne h.symm)]
  · intro hc
    rw [attempt_connect E arg port ai st hs hg, if_neg (not_not.mpr hc), hc]
  · intro hc
    rw [attempt_connect E arg port ai st hs hg, if_pos hc]
    constructor
    · intro h
      rw [if_neg (not_not.mpr h)]
      exact ⟨_, _, rfl⟩
    · intro h
      rw [if_pos h]
      exact ⟨_, _, rfl⟩

/-- Witness of C9: on Linux a `connect` that reports `EINPROGRESS` and whose
handshake completes within the timeout is a success. -/
theorem connect_decision_witness :
    (check_error 115 (ex_inprogress 4 "10.0.0.2") 4 10000 115).val = 0
      ↔ ((115 : Int) = 115 ∧ (ex_inprogress 4 "10.0.0.2").poll.ret > 0
        ∧ (ex_inprogress 4 "10.0.0.2").getsockopt.ret = 0
        ∧ (ex_inprogress 4 "10.0.0.2").so_error = 0) :=
  (connect_decision 115 (ex_inprogress 4 "10.0.0.2") 4 10000 115 "host" "80"
    ⟨2, 2, 16, ex_inprogress 4 "10.0.0.2"⟩ ⟨0, "", 0, 0⟩ (by decide) (by decide)).1

end Ns
